import Mathlib

/-!
# Verification of the Blockza MCP server (`src/server.py`)

A shallow embedding of the pure core of `server.py`:

* JSON values (`JVal`) model Python objects that appear as parsed
  request bodies and as the dictionaries built by the field filters.
* Python runtime errors that the code can raise while processing a
  response are modelled by `PyErr`, and fallible code returns
  `Except PyErr _`.  A `try/except requests.exceptions.RequestException`
  block catches only the transport-layer outcomes (modelled by the
  non-`ok` constructors of `HttpResp`), while a bare `except Exception`
  catches `PyErr` results as well.
* The HTTP layer is modelled by `Request` (what `requests.get` is asked
  to fetch: URL plus query parameters, in insertion order) and
  `HttpResp` (the outcome the `requests` library delivers).  Each
  accessor of `BlockzaClient` is split into a `*_request` function
  (the request it issues) and a `*_process` function (what it computes
  from the response); tool and resource adapters are embedded the same
  way, with their JSON envelope modelled as the `JVal` that the source
  passes to `json.dumps`.
* `datetime` values are modelled by `PyDatetime`; `fromisoformat` is
  embedded for the standard `YYYY-MM-DD[THH:MM[:SS]][±HH:MM]` shapes,
  and comparison between offset-aware and offset-naive values raises
  `TypeError`, as in CPython.
-/

/-- A parsed JSON value / the Python objects handled by the server. -/
inductive JVal where
  | jnull
  | jbool (b : Bool)
  | jnum (n : Int)
  | jstr (s : String)
  | jarr (xs : List JVal)
  | jobj (fields : List (String × JVal))
deriving Repr

open JVal

/-- Python runtime errors raised by the code paths we model. -/
inductive PyErr where
  | typeError
  | attributeError
deriving Repr, DecidableEq

/-- First-match association lookup, the core of Python `dict.get`. -/
def lookupKey (r : List (String × JVal)) (k : String) : Option JVal :=
  (r.find? (fun p => p.1 == k)).map (fun p => p.2)

/-- Python `d.get(k, default)`. -/
def pyGetD (r : List (String × JVal)) (k : String) (d : JVal) : JVal :=
  match lookupKey r k with
  | some v => v
  | none => d

/-- Python `d.get(k)` (default `None`). -/
def pyGet (r : List (String × JVal)) (k : String) : JVal :=
  pyGetD r k jnull

/-- Python truthiness of a JSON value. -/
def JVal.truthy : JVal → Bool
  | jnull => false
  | jbool b => b
  | jnum n => n != 0
  | jstr s => s != ""
  | jarr xs => !xs.isEmpty
  | jobj fs => !fs.isEmpty

/-- Python `a or b` (value-returning, truthiness-driven). -/
def pyOr (a b : JVal) : JVal :=
  if a.truthy then a else b

/-- Take the first 200 characters of a string (Python `s[:200]` on `str`). -/
def strTake200 (s : String) : String :=
  String.mk (s.data.take 200)

/-- Python `x[:200]`: slices strings and lists, raises `TypeError` otherwise. -/
def pySlice200 : JVal → Except PyErr JVal
  | jstr s => .ok (jstr (strTake200 s))
  | jarr xs => .ok (jarr (xs.take 200))
  | _ => .error .typeError

/-- Python `len(x)`: defined on strings, lists and dicts, `TypeError` otherwise. -/
def pyLen : JVal → Except PyErr Int
  | jstr s => .ok s.length
  | jarr xs => .ok xs.length
  | jobj fs => .ok fs.length
  | _ => .error .typeError

/-- Python iteration `for x in v`: lists yield elements, strings yield
their characters, dicts yield their keys; other values raise `TypeError`. -/
def pyIter : JVal → Except PyErr (List JVal)
  | jarr xs => .ok xs
  | jstr s => .ok (s.data.map (fun c => jstr (String.mk [c])))
  | jobj fs => .ok (fs.map (fun p => jstr p.1))
  | _ => .error .typeError

/-- Python `v == s` for a `str` literal `s`: only equal strings compare
equal (no coercion between `str` and other types). -/
def pyEqStr (v : JVal) (s : String) : Bool :=
  match v with
  | jstr t => t == s
  | _ => false

/-- Python `xs[:n]` on a list, for an `int` bound `n` (negative bounds
count from the end, clamped at zero). -/
def pySliceTo (n : Int) (xs : List JVal) : List JVal :=
  if 0 ≤ n then xs.take n.toNat
  else xs.take (xs.length - (-n).toNat)

/-- Python `s.lower()` (ASCII case folding suffices for this code). -/
def pyLower (s : String) : String :=
  String.mk (s.data.map Char.toLower)

/-- `needle in haystack` on lists of characters (contiguous substring). -/
def listInfix (n : List Char) : List Char → Bool
  | [] => n.isEmpty
  | c :: cs => n.isPrefixOf (c :: cs) || listInfix n cs

/-- Python `needle in haystack` on strings. -/
def strIn (needle haystack : String) : Bool :=
  listInfix needle.data haystack.data

/-- A Python list comprehension `[f x for x in xs]`: evaluated left to
right, the first raised error aborts the whole expression. -/
def mapExcept (f : JVal → Except PyErr JVal) : List JVal → Except PyErr (List JVal)
  | [] => .ok []
  | x :: xs => do
      let y ← f x
      let ys ← mapExcept f xs
      .ok (y :: ys)

/-- Left-to-right concatenation of fallible per-element results
(models a loop that appends several items per iteration). -/
def concatMapExcept (f : JVal → Except PyErr (List JVal)) :
    List JVal → Except PyErr (List JVal)
  | [] => .ok []
  | x :: xs => do
      let y ← f x
      let ys ← concatMapExcept f xs
      .ok (y ++ ys)

/-- Replace every occurrence of `old` (non-overlapping, left to right)
by `new`, on character lists; models Python `str.replace`.  The fuel
argument (instantiated with the input length, which each step consumes)
makes the recursion structural. -/
def replaceFuel (old new : List Char) : Nat → List Char → List Char
  | _, [] => []
  | 0, l => l
  | fuel + 1, c :: cs =>
      if old.isPrefixOf (c :: cs) ∧ old ≠ [] then
        new ++ replaceFuel old new fuel (List.drop (old.length - 1) cs)
      else
        c :: replaceFuel old new fuel cs

/-- Python `s.replace(old, new)`. -/
def pyStrReplace (s old new : String) : String :=
  String.mk (replaceFuel old.data new.data s.data.length s.data)

/-- A Python `datetime`: calendar fields plus an optional UTC offset in
minutes (`none` models an offset-naive value). -/
structure PyDatetime where
  year : Nat
  month : Nat
  day : Nat
  hour : Nat
  minute : Nat
  second : Nat
  offsetMinutes : Option Int
deriving Repr, DecidableEq

/-- The field tuple CPython compares lexicographically for naive datetimes. -/
def dtFields (d : PyDatetime) : List Nat :=
  [d.year, d.month, d.day, d.hour, d.minute, d.second]

/-- Lexicographic strict order on equal-length `Nat` lists. -/
def listLtNat : List Nat → List Nat → Bool
  | [], [] => false
  | [], _ :: _ => true
  | _ :: _, [] => false
  | x :: xs, y :: ys => x < y || (x == y && listLtNat xs ys)

/-- Days from 1970-01-01 of a civil date (standard era computation). -/
def daysFromCivil (y m d : Int) : Int :=
  let y' := if m ≤ 2 then y - 1 else y
  let era := (if 0 ≤ y' then y' else y' - 399) / 400
  let yoe := y' - era * 400
  let mp := (m + 9) % 12
  let doy := (153 * mp + 2) / 5 + d - 1
  let doe := yoe * 365 + yoe / 4 - yoe / 100 + doy
  era * 146097 + doe - 719468

/-- Absolute time in seconds of an offset-aware datetime. -/
def dtEpochSeconds (dt : PyDatetime) (off : Int) : Int :=
  daysFromCivil dt.year dt.month dt.day * 86400 +
    dt.hour * 3600 + dt.minute * 60 + dt.second - off * 60

/-- Python `a > b` on datetimes: lexicographic on fields when both are
naive, absolute-time comparison when both are aware, and a `TypeError`
when one is aware and the other naive. -/
def pyDtGt (a b : PyDatetime) : Except PyErr Bool :=
  match a.offsetMinutes, b.offsetMinutes with
  | none, none => .ok (listLtNat (dtFields b) (dtFields a))
  | some oa, some ob => .ok (decide (dtEpochSeconds b ob < dtEpochSeconds a oa))
  | _, _ => .error .typeError

/-- Is `y` a leap year (Gregorian)? -/
def isLeapYear (y : Nat) : Bool :=
  y % 4 == 0 && (y % 100 != 0 || y % 400 == 0)

/-- Number of days in a month. -/
def daysInMonth (y m : Nat) : Nat :=
  if m == 2 then (if isLeapYear y then 29 else 28)
  else if m == 4 || m == 6 || m == 9 || m == 11 then 30
  else 31

/-- One decimal digit. -/
def digitVal (c : Char) : Option Nat :=
  if c.isDigit then some (c.toNat - 48) else none

/-- Two decimal digits. -/
def parse2 : List Char → Option (Nat × List Char)
  | a :: b :: rest => do
      let x ← digitVal a
      let y ← digitVal b
      some (10 * x + y, rest)
  | _ => none

/-- Four decimal digits. -/
def parse4 : List Char → Option (Nat × List Char)
  | a :: b :: c :: d :: rest => do
      let w ← digitVal a
      let x ← digitVal b
      let y ← digitVal c
      let z ← digitVal d
      some (1000 * w + 100 * x + 10 * y + z, rest)
  | _ => none

/-- `HH:MM` with an optional `:SS`. -/
def parseTime (cs : List Char) : Option (Nat × Nat × Nat × List Char) := do
  let (h, cs) ← parse2 cs
  match cs with
  | ':' :: cs => do
      let (mi, cs) ← parse2 cs
      match cs with
      | ':' :: cs => do
          let (s, cs) ← parse2 cs
          some (h, mi, s, cs)
      | _ => some (h, mi, 0, cs)
  | _ => none

/-- `±HH:MM` UTC offset, in minutes. -/
def parseOffset (cs : List Char) : Option (Int × List Char) :=
  match cs with
  | sign :: rest =>
      if sign = '+' ∨ sign = '-' then do
        let (oh, rest) ← parse2 rest
        match rest with
        | ':' :: rest => do
            let (om, rest) ← parse2 rest
            if oh ≤ 23 ∧ om ≤ 59 then
              let total : Int := oh * 60 + om
              some (if sign = '-' then -total else total, rest)
            else none
        | _ => none
      else none
  | [] => none

/-- `datetime.fromisoformat`, embedded for the standard
`YYYY-MM-DD[<sep>HH:MM[:SS]][±HH:MM]` shapes (any single separator
character, as in CPython); field ranges are validated. -/
def fromisoformat (s : String) : Option PyDatetime := do
  let cs := s.data
  let (y, cs) ← parse4 cs
  let cs ← match cs with
    | '-' :: cs => some cs
    | _ => none
  let (mo, cs) ← parse2 cs
  let cs ← match cs with
    | '-' :: cs => some cs
    | _ => none
  let (d, cs) ← parse2 cs
  let (h, mi, sec, off, rest) ← match cs with
    | [] => some (0, 0, 0, (none : Option Int), ([] : List Char))
    | _ :: cs' => do
        let (h, mi, sec, cs'') ← parseTime cs'
        match cs'' with
        | [] => some (h, mi, sec, (none : Option Int), ([] : List Char))
        | _ => do
            let (off, cs''') ← parseOffset cs''
            some (h, mi, sec, some off, cs''')
  if rest = [] ∧ 1 ≤ y ∧ y ≤ 9999 ∧ 1 ≤ mo ∧ mo ≤ 12 ∧ 1 ≤ d ∧
      d ≤ daysInMonth y mo ∧ h ≤ 23 ∧ mi ≤ 59 ∧ sec ≤ 59 then
    some ⟨y, mo, d, h, mi, sec, off⟩
  else none

/-- A query-parameter value (`requests` receives Python ints and strs). -/
inductive PVal where
  | pint (n : Int)
  | pstr (s : String)
deriving Repr, DecidableEq

/-- The upstream HTTP GET a client method asks `requests.get` to issue:
URL plus query parameters in insertion order. -/
structure Request where
  url : String
  params : List (String × PVal)
deriving Repr, DecidableEq

/-- `params[k] = v` guarded by `if v is not None`. -/
def optIntParam (k : String) (v : Option Int) : List (String × PVal) :=
  match v with
  | some n => [(k, PVal.pint n)]
  | none => []

/-- `params[k] = v` guarded by `if v:` (skips `None` and `""`). -/
def optStrParam (k : String) (v : Option String) : List (String × PVal) :=
  match v with
  | some s => if s = "" then [] else [(k, PVal.pstr s)]
  | none => []

/-- The outcome of one `requests.get` call, as the calling code sees it:
a transport-level exception, a non-2xx status (raised by
`raise_for_status`), an unparsable body (raised by `response.json()`;
all three are `requests.exceptions.RequestException`s), or a parsed
JSON body. -/
inductive HttpResp where
  | transportError
  | statusError (code : Nat)
  | badJson
  | ok (body : JVal)
deriving Repr

/-- Did the `requests` layer fail (raise a `RequestException`)? -/
def HttpResp.isFail : HttpResp → Bool
  | .ok _ => false
  | _ => true

namespace BlockzaClient

def BASE_URL : String := "https://api.blockza.io/api"
def EVENTS_URL : String := "https://api.blockza.io/api/events"
def PODCASTS_URL : String := "https://api.blockza.io/api/podcasts"
def DIRECTORY_URL : String := "https://api.blockza.io/api/directory"
def EXPERTS_URL : String := "https://api.blockza.io/api/experts"
def BOOKINGS_URL : String := "https://api.blockza.io/api/bookings"

/-- `BlockzaClient.filter_event_fields`: project an event onto the
retained fields, truncating `description` (dict values are evaluated in
key order, so a slicing error preempts the result). -/
def filter_event_fields (event : JVal) : Except PyErr JVal :=
  match event with
  | jobj r => do
      let desc ← pySlice200 (pyGetD r "description" (jstr ""))
      .ok (jobj [
        ("_id", pyGet r "_id"),
        ("title", pyGet r "title"),
        ("description", desc),
        ("location", pyGet r "location"),
        ("country", pyGet r "country"),
        ("city", pyGet r "city"),
        ("eventStartDate", pyGet r "eventStartDate"),
        ("eventEndDate", pyGet r "eventEndDate"),
        ("category", pyGet r "category"),
        ("website", pyGet r "website"),
        ("company", pyGet r "company")])
  | _ => .error .attributeError

/-- `BlockzaClient.filter_podcast_fields`. -/
def filter_podcast_fields (podcast : JVal) : Except PyErr JVal :=
  match podcast with
  | jobj r => do
      let image := pyGetD r "image" (jobj [])
      let desc ← pySlice200 (pyGetD r "description" (jstr ""))
      .ok (jobj [
        ("_id", pyOr (pyGet r "_id") (pyGet r "id")),
        ("title", pyGet r "title"),
        ("description", desc),
        ("shortDescription", pyGetD r "shortDescription" (jstr "")),
        ("slug", pyGet r "slug"),
        ("category", pyGet r "category"),
        ("company", pyGet r "company"),
        ("image", match image with
          | jobj ir => pyGet ir "url"
          | _ => jnull),
        ("youtubeIframe", pyGet r "youtubeIframe"),
        ("status", pyGet r "status"),
        ("likes", pyGetD r "likes" (jnum 0)),
        ("views", pyGetD r "views" (jnum 0)),
        ("createdAt", pyGet r "createdAt")])
  | _ => .error .attributeError

/-- `BlockzaClient.filter_expert_fields`. -/
def filter_expert_fields (expert : JVal) : Except PyErr JVal :=
  match expert with
  | jobj r =>
      .ok (jobj [
        ("_id", pyGet r "_id"),
        ("name", pyGet r "name"),
        ("title", pyGet r "title"),
        ("email", pyGet r "email"),
        ("image", pyGet r "image"),
        ("linkedinUrl", pyGet r "linkedinUrl"),
        ("price", pyGetD r "price" (jnum 0)),
        ("bookingMethods", pyGetD r "bookingMethods" (jarr [])),
        ("status", pyGet r "status"),
        ("followers", pyGetD r "followers" (jnum 0)),
        ("responseRate", pyGetD r "responseRate" (jnum 0))])
  | _ => .error .attributeError

/-- `BlockzaClient.filter_team_member_fields` (the `company_name`
argument is passed through into the output). -/
def filter_team_member_fields (member : JVal) (company_name : JVal) :
    Except PyErr JVal :=
  match member with
  | jobj r =>
      .ok (jobj [
        ("_id", pyGet r "_id"),
        ("name", pyGet r "name"),
        ("title", pyGet r "title"),
        ("email", pyGet r "email"),
        ("image", pyGet r "image"),
        ("linkedinUrl", pyGet r "linkedinUrl"),
        ("price", pyGetD r "price" (jnum 0)),
        ("bookingMethods", pyGetD r "bookingMethods" (jarr [])),
        ("status", pyGet r "status"),
        ("followers", pyGetD r "followers" (jnum 0)),
        ("responseRate", pyGetD r "responseRate" (jnum 0)),
        ("company", company_name),
        ("memberType", jstr "company_team_member")])
  | _ => .error .attributeError

/-- The GET issued by `BlockzaClient.get_events` (parameters in the
source's insertion order; `limit`/`offset` are guarded by
`is not None`, the string filters by truthiness). -/
def get_events_request (limit offset : Option Int)
    (search country city category : Option String) (upcoming : Bool) : Request :=
  { url := EVENTS_URL,
    params :=
      optIntParam "limit" limit ++ optIntParam "offset" offset ++
      optStrParam "search" search ++ optStrParam "country" country ++
      optStrParam "city" city ++ optStrParam "category" category ++
      (if upcoming then [("upcoming", PVal.pstr "true")] else []) }

/-- What `BlockzaClient.get_events` computes from the response: a
`RequestException` is caught and yields `[]`; a non-list body yields
`[]`; list elements are mapped through `filter_event_fields`, whose
errors are NOT caught (`except` covers only `RequestException`). -/
def get_events_process (resp : HttpResp) : Except PyErr (List JVal) :=
  match resp with
  | .transportError | .statusError _ | .badJson => .ok []
  | .ok data =>
      let events := match data with
        | jarr xs => xs
        | _ => []
      mapExcept filter_event_fields events

/-- The GET issued by `BlockzaClient.get_podcasts`. -/
def get_podcasts_request (limit offset : Option Int)
    (search category company status : Option String) : Request :=
  { url := PODCASTS_URL,
    params :=
      optIntParam "limit" limit ++ optIntParam "offset" offset ++
      optStrParam "search" search ++ optStrParam "category" category ++
      optStrParam "company" company ++ optStrParam "status" status }

/-- What `BlockzaClient.get_podcasts` computes: both a top-level array
and a `{data: [...]}` envelope are accepted. -/
def get_podcasts_process (resp : HttpResp) : Except PyErr (List JVal) :=
  match resp with
  | .transportError | .statusError _ | .badJson => .ok []
  | .ok data =>
      let podcasts : JVal := match data with
        | jarr xs => jarr xs
        | jobj r => pyGetD r "data" (jarr [])
        | _ => jarr []
      do
        let elems ← pyIter podcasts
        mapExcept filter_podcast_fields elems

/-- The GET issued by `BlockzaClient.get_experts`. -/
def get_experts_request (limit offset : Option Int) (search : Option String) :
    Request :=
  { url := EXPERTS_URL,
    params :=
      optIntParam "limit" limit ++ optIntParam "offset" offset ++
      optStrParam "search" search }

/-- What `BlockzaClient.get_experts` computes: both a top-level array
and a `{data: [...]}` envelope are accepted. -/
def get_experts_process (resp : HttpResp) : Except PyErr (List JVal) :=
  match resp with
  | .transportError | .statusError _ | .badJson => .ok []
  | .ok data =>
      let experts : JVal := match data with
        | jarr xs => jarr xs
        | jobj r => pyGetD r "data" (jarr [])
        | _ => jarr []
      do
        let elems ← pyIter experts
        mapExcept filter_expert_fields elems

/-- The GET issued by `BlockzaClient.get_team_members` (the `offset`
and `company` arguments are NOT forwarded upstream). -/
def get_team_members_request (limit : Option Int)
    (search category : Option String) : Request :=
  { url := DIRECTORY_URL,
    params :=
      optIntParam "limit" limit ++ optStrParam "search" search ++
      optStrParam "category" category }

/-- The inner search check of `get_team_members`:
`search_lower in filtered.get(key, "").lower()`, where the filtered
member always carries the key (possibly with `None`), so a non-string
value raises `AttributeError` on `.lower()`. -/
def memberFieldMatches (searchLower : String) (fr : List (String × JVal))
    (key : String) : Except PyErr Bool :=
  match pyGetD fr key (jstr "") with
  | jstr s => .ok (strIn searchLower (pyLower s))
  | _ => .error .attributeError

/-- The `or`-chain of the search filter, short-circuiting left to right
over the `name`, `title` and `email` fields. -/
def memberMatchesSearch (searchLower : String) (fr : List (String × JVal)) :
    Except PyErr Bool := do
  let n ← memberFieldMatches searchLower fr "name"
  if n then .ok true
  else
    let t ← memberFieldMatches searchLower fr "title"
    if t then .ok true
    else memberFieldMatches searchLower fr "email"

/-- The `if search:` guard around the search check: a falsy search
term (absent or empty) keeps every member. -/
def memberKeep (search : Option String) (fv : JVal) : Except PyErr Bool :=
  match search with
  | some s =>
      if s = "" then .ok true
      else
        match fv with
        | jobj fr => memberMatchesSearch (pyLower s) fr
        | _ => .ok false
  | none => .ok true

/-- The inner member loop of `get_team_members`: filter each member,
then append it if there is no search term or the search matches. -/
def processMembers (search : Option String) (companyName : JVal) :
    List JVal → Except PyErr (List JVal)
  | [] => .ok []
  | m :: ms => do
      let fv ← filter_team_member_fields m companyName
      let keep ← memberKeep search fv
      let rest ← processMembers search companyName ms
      .ok (if keep then fv :: rest else rest)

/-- The client-side company filter: `if company and company.lower()
not in company_name.lower(): continue` (a falsy company argument skips
nothing; a non-string company name raises `AttributeError`). -/
def companySkip (company : Option String) (nameV : JVal) : Except PyErr Bool :=
  match company with
  | some c =>
      if c = "" then .ok false
      else
        match nameV with
        | jstr nm => .ok (!(strIn (pyLower c) (pyLower nm)))
        | _ => .error .attributeError
  | none => .ok false

/-- One iteration of the company loop of `get_team_members`: read the
company name, apply the (client-side) company filter, and flatten
`teamMembers` when present. -/
def processCompanyData (search company : Option String) (cd : JVal) :
    Except PyErr (List JVal) :=
  match cd with
  | jobj r => do
      let nameV := pyGetD r "name" (jstr "")
      let skip ← companySkip company nameV
      if skip then .ok []
      else
        if (r.find? (fun p => p.1 == "teamMembers")).isSome then do
          let members ← pyIter (pyGet r "teamMembers")
          processMembers search nameV members
        else .ok []
  | _ => .error .attributeError

/-- What `BlockzaClient.get_team_members` computes: only the
`{data: [...]}` envelope is accepted; members of every company are
flattened (with client-side company/search filtering), and `limit`
truncates at the end under an `if limit:` truthiness guard.  Only
`RequestException` is caught. -/
def get_team_members_process (limit : Option Int)
    (search company : Option String) (resp : HttpResp) :
    Except PyErr (List JVal) :=
  match resp with
  | .transportError | .statusError _ | .badJson => .ok []
  | .ok data => do
      let companiesV : JVal := match data with
        | jobj r => pyGetD r "data" (jarr [])
        | _ => jarr []
      let companies ← pyIter companiesV
      let tms ← concatMapExcept (processCompanyData search company) companies
      .ok (match limit with
        | some l => if l ≠ 0 then pySliceTo l tms else tms
        | none => tms)

/-- The GET issued by `BlockzaClient.get_companies`. -/
def get_companies_request (limit : Option Int)
    (search category : Option String) : Request :=
  { url := DIRECTORY_URL,
    params :=
      optIntParam "limit" limit ++ optStrParam "search" search ++
      optStrParam "category" category }

/-- The inline per-company projection of `get_companies` (note
`website` is read from the upstream `url` field, `shortDescription` is
truncated, and `teamSize` is the length of `teamMembers`). -/
def filterCompanyEntry (company : JVal) : Except PyErr JVal :=
  match company with
  | jobj r => do
      let shortDesc ← pySlice200 (pyGetD r "shortDescription" (jstr ""))
      let teamSize ← pyLen (pyGetD r "teamMembers" (jarr []))
      .ok (jobj [
        ("_id", pyGet r "_id"),
        ("name", pyGet r "name"),
        ("slug", pyGet r "slug"),
        ("category", pyGet r "category"),
        ("shortDescription", shortDesc),
        ("logo", pyGet r "logo"),
        ("website", pyGet r "url"),
        ("founderName", pyGet r "founderName"),
        ("verificationStatus", pyGet r "verificationStatus"),
        ("teamSize", jnum teamSize),
        ("likes", pyGetD r "likes" (jnum 0)),
        ("views", pyGetD r "views" (jnum 0))])
  | _ => .error .attributeError

/-- What `BlockzaClient.get_companies` computes: only the
`{data: [...]}` envelope is accepted; each listed company is projected
by `filterCompanyEntry`. -/
def get_companies_process (resp : HttpResp) : Except PyErr (List JVal) :=
  match resp with
  | .transportError | .statusError _ | .badJson => .ok []
  | .ok data => do
      let companiesV : JVal := match data with
        | jobj r => pyGetD r "data" (jarr [])
        | _ => jarr []
      let companies ← pyIter companiesV
      mapExcept filterCompanyEntry companies

/-- The linear scan of the by-id lookups: return the first dict whose
`key` field `==` the requested id; a non-dict element raises
`AttributeError`. -/
def scanById (key : String) (idv : String) : List JVal → Except PyErr (Option JVal)
  | [] => .ok none
  | e :: es =>
      match e with
      | jobj r =>
          if pyEqStr (pyGet r key) idv then .ok (some (jobj r))
          else scanById key idv es
      | _ => .error .attributeError

/-- `BlockzaClient.get_event_by_id`: re-fetch the full event listing
(`get_events()` with no arguments) and scan it for `_id`; the broad
`except Exception` turns any error into `None`. -/
def get_event_by_id_request : Request :=
  get_events_request none none none none none none false

def get_event_by_id_process (event_id : String) (resp : HttpResp) : Option JVal :=
  match (do
      let events ← get_events_process resp
      scanById "_id" event_id events) with
  | .ok v => v
  | .error _ => none

/-- The two-field match of `get_podcast_by_id`:
`p.get("_id") == pid or p.get("id") == pid`. -/
def scanPodcastById (pid : String) : List JVal → Except PyErr (Option JVal)
  | [] => .ok none
  | e :: es =>
      match e with
      | jobj r =>
          if pyEqStr (pyGet r "_id") pid || pyEqStr (pyGet r "id") pid then
            .ok (some (jobj r))
          else scanPodcastById pid es
      | _ => .error .attributeError

/-- `BlockzaClient.get_podcast_by_id`: re-fetch the full podcast
listing and scan it; broad `except Exception` yields `None`. -/
def get_podcast_by_id_request : Request :=
  get_podcasts_request none none none none none none

def get_podcast_by_id_process (podcast_id : String) (resp : HttpResp) :
    Option JVal :=
  match (do
      let podcasts ← get_podcasts_process resp
      scanPodcastById podcast_id podcasts) with
  | .ok v => v
  | .error _ => none

/-- `BlockzaClient.get_expert_by_id`: a DIRECT GET of
`/api/experts/{id}` (no listing, no scan); a truthy body is passed
through `filter_expert_fields`, whose errors are NOT caught (`except`
covers only `RequestException`). -/
def get_expert_by_id_request (expert_id : String) : Request :=
  { url := EXPERTS_URL ++ "/" ++ expert_id, params := [] }

def get_expert_by_id_process (resp : HttpResp) : Except PyErr (Option JVal) :=
  match resp with
  | .transportError | .statusError _ | .badJson => .ok none
  | .ok data =>
      if data.truthy then do
        let f ← filter_expert_fields data
        .ok (some f)
      else .ok none

/-- `BlockzaClient.get_team_member_by_id`: fetch
`get_team_members(limit=1000)` and scan for `_id`; broad
`except Exception` yields `None`. -/
def get_team_member_by_id_request : Request :=
  get_team_members_request (some 1000) none none

def get_team_member_by_id_process (member_id : String) (resp : HttpResp) :
    Option JVal :=
  match (do
      let members ← get_team_members_process (some 1000) none none resp
      scanById "_id" member_id members) with
  | .ok v => v
  | .error _ => none

/-- `BlockzaClient.get_company_by_id`: fetch the raw directory (no
query parameters) and scan the UNfiltered `data` list for `_id`; broad
`except Exception` yields `None`.  The matching record is returned
verbatim. -/
def get_company_by_id_request : Request :=
  { url := DIRECTORY_URL, params := [] }

def get_company_by_id_process (company_id : String) (resp : HttpResp) :
    Option JVal :=
  match resp with
  | .transportError | .statusError _ | .badJson => none
  | .ok data =>
      let companiesV : JVal := match data with
        | jobj r => pyGetD r "data" (jarr [])
        | _ => jarr []
      match (do
          let companies ← pyIter companiesV
          scanById "_id" company_id companies) with
      | .ok v => v
      | .error _ => none

/-- The per-event body of the `upcoming` loop in
`BlockzaClient.get_upcoming_events`: parse
`event.get("eventStartDate", "").replace("Z", "+00:00")` and keep the
event when `event_date > now`; the bare `except: pass` swallows every
error (missing/non-string date, parse failure, and the `TypeError`
raised when comparing an offset-aware date with the naive `now`). -/
def upcomingKeep (now : PyDatetime) (ev : JVal) : Bool :=
  match ev with
  | jobj r =>
      match pyGetD r "eventStartDate" (jstr "") with
      | jstr s =>
          match fromisoformat (pyStrReplace s "Z" "+00:00") with
          | some d =>
              match pyDtGt d now with
              | .ok b => b
              | .error _ => false
          | none => false
      | _ => false
  | _ => false

/-- `BlockzaClient.get_upcoming_events`: list events (no arguments),
keep those whose start date compares greater than `datetime.now()`
(an offset-naive value, passed here as `now`); the outer broad
`except Exception` yields `[]`. -/
def get_upcoming_events_process (now : PyDatetime) (resp : HttpResp) :
    List JVal :=
  match get_events_process resp with
  | .error _ => []
  | .ok events => events.filter (upcomingKeep now)

end BlockzaClient

/-- Python `None`-or-`str` arguments echoed into JSON envelopes. -/
def optStrToJ : Option String → JVal
  | some s => jstr s
  | none => jnull

/-- Tool `list_events` (ceiling 20): the upstream GET it triggers. -/
def list_events_request (limit offset : Int) (upcoming_only : Bool) : Request :=
  BlockzaClient.get_events_request (some (min limit 20)) (some offset)
    none none none none upcoming_only

/-- Tool `list_events`: the `{"events": ..., "count": ...}` envelope
passed to `json.dumps` (accessor errors are not caught here). -/
def list_events_process (resp : HttpResp) : Except PyErr JVal := do
  let events ← BlockzaClient.get_events_process resp
  .ok (jobj [("events", jarr events), ("count", jnum events.length)])

/-- Tool `search_events` (ceiling 15): the upstream GET it triggers. -/
def search_events_request (query : String) (limit : Int)
    (country city : Option String) : Request :=
  BlockzaClient.get_events_request (some (min limit 15)) none (some query)
    country city none false

/-- Tool `search_events`: envelope. -/
def search_events_process (resp : HttpResp) : Except PyErr JVal := do
  let events ← BlockzaClient.get_events_process resp
  .ok (jobj [("events", jarr events), ("count", jnum events.length)])

/-- Tool `get_event_details`: not-found envelope or the bare event. -/
def get_event_details_process (event_id : String) (resp : HttpResp) : JVal :=
  match BlockzaClient.get_event_by_id_process event_id resp with
  | none => jobj [("error", jstr "Event not found"), ("event", jnull)]
  | some event => event

/-- Tool `get_upcoming_events` (ceiling 15): delegates the filtering to
the upstream `upcoming=true` parameter. -/
def get_upcoming_events_request (limit : Int) : Request :=
  BlockzaClient.get_events_request (some (min limit 15)) none
    none none none none true

/-- Tool `get_upcoming_events`: envelope. -/
def get_upcoming_events_process (resp : HttpResp) : Except PyErr JVal := do
  let events ← BlockzaClient.get_events_process resp
  .ok (jobj [("events", jarr events), ("count", jnum events.length)])

/-- Tool `search_events_by_location` (ceiling 15). -/
def search_events_by_location_request (country city : Option String)
    (limit : Int) : Request :=
  BlockzaClient.get_events_request (some (min limit 15)) none none
    country city none false

/-- Tool `search_events_by_location`: envelope. -/
def search_events_by_location_process (resp : HttpResp) : Except PyErr JVal := do
  let events ← BlockzaClient.get_events_process resp
  .ok (jobj [("events", jarr events), ("count", jnum events.length)])

/-- Tool `list_podcasts` (ceiling 20). -/
def list_podcasts_request (limit offset : Int) : Request :=
  BlockzaClient.get_podcasts_request (some (min limit 20)) (some offset)
    none none none none

/-- Tool `list_podcasts`: envelope. -/
def list_podcasts_process (resp : HttpResp) : Except PyErr JVal := do
  let podcasts ← BlockzaClient.get_podcasts_process resp
  .ok (jobj [("podcasts", jarr podcasts), ("count", jnum podcasts.length)])

/-- Tool `search_podcasts` (ceiling 15). -/
def search_podcasts_request (query : String) (limit : Int)
    (category company : Option String) : Request :=
  BlockzaClient.get_podcasts_request (some (min limit 15)) none (some query)
    category company none

/-- Tool `search_podcasts`: envelope. -/
def search_podcasts_process (resp : HttpResp) : Except PyErr JVal := do
  let podcasts ← BlockzaClient.get_podcasts_process resp
  .ok (jobj [("podcasts", jarr podcasts), ("count", jnum podcasts.length)])

/-- Tool `get_podcast_details`: not-found envelope or the bare podcast. -/
def get_podcast_details_process (podcast_id : String) (resp : HttpResp) : JVal :=
  match BlockzaClient.get_podcast_by_id_process podcast_id resp with
  | none => jobj [("error", jstr "Podcast not found"), ("podcast", jnull)]
  | some podcast => podcast

/-- Tool `get_podcasts_by_category` (ceiling 15): the clamped limit is
NOT forwarded upstream — the delegate `get_podcasts(category=category)`
sends only the category. -/
def get_podcasts_by_category_request (category : String) : Request :=
  BlockzaClient.get_podcasts_request none none none (some category) none none

/-- Tool `get_podcasts_by_category`: the clamped limit is instead
applied locally, by slicing and `min(len(podcasts), limit)`. -/
def get_podcasts_by_category_process (limit : Int) (resp : HttpResp) :
    Except PyErr JVal := do
  let l := min limit 15
  let podcasts ← BlockzaClient.get_podcasts_process resp
  .ok (jobj [("podcasts", jarr (pySliceTo l podcasts)),
    ("count", jnum (min (podcasts.length : Int) l))])

/-- Tool `search_podcasts_by_company` (ceiling 15). -/
def search_podcasts_by_company_request (company : String) (limit : Int) :
    Request :=
  BlockzaClient.get_podcasts_request (some (min limit 15)) none none none
    (some company) none

/-- Tool `search_podcasts_by_company`: envelope. -/
def search_podcasts_by_company_process (resp : HttpResp) : Except PyErr JVal := do
  let podcasts ← BlockzaClient.get_podcasts_process resp
  .ok (jobj [("podcasts", jarr podcasts), ("count", jnum podcasts.length)])

/-- Tool `list_experts` (ceiling 20). -/
def list_experts_request (limit offset : Int) : Request :=
  BlockzaClient.get_experts_request (some (min limit 20)) (some offset) none

/-- Tool `list_experts`: envelope. -/
def list_experts_process (resp : HttpResp) : Except PyErr JVal := do
  let experts ← BlockzaClient.get_experts_process resp
  .ok (jobj [("experts", jarr experts), ("count", jnum experts.length),
    ("source", jstr "/api/experts"), ("type", jstr "standalone_experts")])

/-- Tool `search_experts` (ceiling 15). -/
def search_experts_request (query : String) (limit : Int) : Request :=
  BlockzaClient.get_experts_request (some (min limit 15)) none (some query)

/-- Tool `search_experts`: envelope. -/
def search_experts_process (resp : HttpResp) : Except PyErr JVal := do
  let experts ← BlockzaClient.get_experts_process resp
  .ok (jobj [("experts", jarr experts), ("count", jnum experts.length),
    ("source", jstr "/api/experts"), ("type", jstr "standalone_experts")])

/-- Tool `get_expert_details`: not-found envelope or a wrapped expert
(accessor errors on a truthy non-dict body are not caught). -/
def get_expert_details_process (resp : HttpResp) : Except PyErr JVal := do
  let expert ← BlockzaClient.get_expert_by_id_process resp
  match expert with
  | none => .ok (jobj [("error", jstr "Expert not found"), ("expert", jnull)])
  | some e => .ok (jobj [("expert", e), ("source", jstr "/api/experts"),
      ("type", jstr "standalone_expert")])

/-- The sort key of `get_top_experts`: `x.get(key, 0)`, required to be
an int (Python `bool` counts); comparing other key types is outside the
modelled domain and mapped to `TypeError`. -/
def expertSortKey (key : String) (x : JVal) : Except PyErr (Int × JVal) :=
  match x with
  | jobj r =>
      match pyGetD r key (jnum 0) with
      | jnum n => .ok (n, jobj r)
      | jbool b => .ok (if b then 1 else 0, jobj r)
      | _ => .error .typeError
  | _ => .error .attributeError

/-- Stable descending insertion (keeps earlier elements before later
ones with an equal key, like `sorted(..., reverse=True)`). -/
def insertDescByKey (x : Int × JVal) : List (Int × JVal) → List (Int × JVal)
  | [] => [x]
  | y :: ys => if x.1 > y.1 then x :: y :: ys else y :: insertDescByKey x ys

/-- Keys for all elements first (as `sorted(key=...)` computes them),
then a stable descending sort. -/
def pySortedDescBy (key : String) (xs : List JVal) : Except PyErr (List JVal) := do
  let keyed ← xs.foldrM (fun x acc => do
      let kx ← expertSortKey key x
      pure (kx :: acc)) []
  .ok ((keyed.foldl (fun acc x => insertDescByKey x acc) []).map (fun p => p.2))

/-- Tool `get_top_experts` (documented ceiling 15): the upstream GET
ALWAYS asks for `limit=100` ("Get all to sort"), whatever the caller
requested. -/
def get_top_experts_request (limit : Int) : Request :=
  BlockzaClient.get_experts_request (some 100) none none

/-- Tool `get_top_experts`: sort by the selected metric (descending),
slice to the clamped limit, envelope. -/
def get_top_experts_process (limit : Int) (sort_by : String) (resp : HttpResp) :
    Except PyErr JVal := do
  let l := min limit 15
  let experts ← BlockzaClient.get_experts_process resp
  let key := if sort_by = "responseRate" then "responseRate"
    else if sort_by = "price" then "price" else "followers"
  let sortedExperts ← pySortedDescBy key experts
  .ok (jobj [("experts", jarr (pySliceTo l sortedExperts)),
    ("count", jnum (min (sortedExperts.length : Int) l)),
    ("sortedBy", jstr sort_by),
    ("source", jstr "/api/experts"), ("type", jstr "standalone_experts")])

/-- Tool `list_team_members` (ceiling 20): the `offset` argument is
accepted but dropped by the accessor. -/
def list_team_members_request (limit offset : Int) : Request :=
  BlockzaClient.get_team_members_request (some (min limit 20)) none none

/-- Tool `list_team_members`: envelope. -/
def list_team_members_process (limit : Int) (resp : HttpResp) :
    Except PyErr JVal := do
  let tms ← BlockzaClient.get_team_members_process (some (min limit 20))
    none none resp
  .ok (jobj [("team_members", jarr tms), ("count", jnum tms.length),
    ("source", jstr "/api/directory"), ("type", jstr "company_team_members")])

/-- Tool `search_team_members` (ceiling 15): `category` is forwarded
upstream, `company` is filtered client-side. -/
def search_team_members_request (query : String) (limit : Int)
    (category : Option String) : Request :=
  BlockzaClient.get_team_members_request (some (min limit 15)) (some query)
    category

/-- Tool `search_team_members`: envelope with a `filters` echo. -/
def search_team_members_process (query : String) (limit : Int)
    (company category : Option String) (resp : HttpResp) :
    Except PyErr JVal := do
  let tms ← BlockzaClient.get_team_members_process (some (min limit 15))
    (some query) company resp
  .ok (jobj [("team_members", jarr tms), ("count", jnum tms.length),
    ("filters", jobj [("search", jstr query), ("company", optStrToJ company),
      ("category", optStrToJ category)]),
    ("source", jstr "/api/directory"), ("type", jstr "company_team_members")])

/-- Tool `get_team_member_details`: not-found envelope or a wrapped
member. -/
def get_team_member_details_process (member_id : String) (resp : HttpResp) :
    JVal :=
  match BlockzaClient.get_team_member_by_id_process member_id resp with
  | none => jobj [("error", jstr "Team member not found"), ("member", jnull)]
  | some m => jobj [("team_member", m), ("source", jstr "/api/directory"),
      ("type", jstr "company_team_member")]

/-- Tool `get_team_members_by_company` (ceiling 15). -/
def get_team_members_by_company_request (company : String) (limit : Int) :
    Request :=
  BlockzaClient.get_team_members_request (some (min limit 15)) none none

/-- Tool `get_team_members_by_company`: envelope. -/
def get_team_members_by_company_process (company : String) (limit : Int)
    (resp : HttpResp) : Except PyErr JVal := do
  let tms ← BlockzaClient.get_team_members_process (some (min limit 15))
    none (some company) resp
  .ok (jobj [("team_members", jarr tms), ("count", jnum tms.length),
    ("company", jstr company),
    ("source", jstr "/api/directory"), ("type", jstr "company_team_members")])

/-- Tool `get_team_members_by_category` (ceiling 15). -/
def get_team_members_by_category_request (category : String) (limit : Int) :
    Request :=
  BlockzaClient.get_team_members_request (some (min limit 15)) none
    (some category)

/-- Tool `get_team_members_by_category`: envelope. -/
def get_team_members_by_category_process (category : String) (limit : Int)
    (resp : HttpResp) : Except PyErr JVal := do
  let tms ← BlockzaClient.get_team_members_process (some (min limit 15))
    none none resp
  .ok (jobj [("team_members", jarr tms), ("count", jnum tms.length),
    ("category", jstr category),
    ("source", jstr "/api/directory"), ("type", jstr "company_team_members")])

/-- Tool `list_companies` (ceiling 20). -/
def list_companies_request (limit offset : Int) : Request :=
  BlockzaClient.get_companies_request (some (min limit 20)) none none

/-- Tool `list_companies`: the clamped limit is applied AGAIN locally
(`companies[:limit]`, `min(len(companies), limit)`). -/
def list_companies_process (limit : Int) (resp : HttpResp) :
    Except PyErr JVal := do
  let l := min limit 20
  let companies ← BlockzaClient.get_companies_process resp
  .ok (jobj [("companies", jarr (pySliceTo l companies)),
    ("count", jnum (min (companies.length : Int) l))])

/-- Tool `search_companies` (ceiling 15). -/
def search_companies_request (query : String) (limit : Int)
    (category : Option String) : Request :=
  BlockzaClient.get_companies_request (some (min limit 15)) (some query)
    category

/-- Tool `search_companies`: envelope. -/
def search_companies_process (resp : HttpResp) : Except PyErr JVal := do
  let companies ← BlockzaClient.get_companies_process resp
  .ok (jobj [("companies", jarr companies), ("count", jnum companies.length)])

/-- Tool `get_companies_by_category` (ceiling 15). -/
def get_companies_by_category_request (category : String) (limit : Int) :
    Request :=
  BlockzaClient.get_companies_request (some (min limit 15)) none
    (some category)

/-- Tool `get_companies_by_category`: envelope. -/
def get_companies_by_category_process (resp : HttpResp) : Except PyErr JVal := do
  let companies ← BlockzaClient.get_companies_process resp
  .ok (jobj [("companies", jarr companies), ("count", jnum companies.length)])

/-- Resource `blockza://experts`: fixed limit 20. -/
def resource_all_experts_request : Request :=
  BlockzaClient.get_experts_request (some 20) none none

def resource_all_experts_process (resp : HttpResp) : Except PyErr JVal := do
  let experts ← BlockzaClient.get_experts_process resp
  .ok (jobj [("experts", jarr experts), ("count", jnum experts.length),
    ("source", jstr "/api/experts"), ("type", jstr "standalone_experts")])

/-- Resource `blockza://experts/{expert_id}`. -/
def resource_expert_by_id_process (resp : HttpResp) : Except PyErr JVal := do
  let expert ← BlockzaClient.get_expert_by_id_process resp
  match expert with
  | none => .ok (jobj [("error", jstr "Expert not found")])
  | some e => .ok (jobj [("expert", e), ("source", jstr "/api/experts"),
      ("type", jstr "standalone_expert")])

/-- Resource `blockza://team-members`: fixed limit 20. -/
def resource_all_team_members_request : Request :=
  BlockzaClient.get_team_members_request (some 20) none none

def resource_all_team_members_process (resp : HttpResp) : Except PyErr JVal := do
  let tms ← BlockzaClient.get_team_members_process (some 20) none none resp
  .ok (jobj [("team_members", jarr tms), ("count", jnum tms.length),
    ("source", jstr "/api/directory"), ("type", jstr "company_team_members")])

/-- Resource `blockza://team-members/{member_id}`. -/
def resource_team_member_by_id_process (member_id : String) (resp : HttpResp) :
    JVal :=
  match BlockzaClient.get_team_member_by_id_process member_id resp with
  | none => jobj [("error", jstr "Team member not found")]
  | some m => jobj [("team_member", m), ("source", jstr "/api/directory"),
      ("type", jstr "company_team_member")]

/-- Resource `blockza://team-members/company/{company}`: fixed limit 30. -/
def resource_team_members_by_company_request : Request :=
  BlockzaClient.get_team_members_request (some 30) none none

def resource_team_members_by_company_process (company : String)
    (resp : HttpResp) : Except PyErr JVal := do
  let tms ← BlockzaClient.get_team_members_process (some 30) none
    (some company) resp
  .ok (jobj [("team_members", jarr tms), ("count", jnum tms.length),
    ("company", jstr company),
    ("source", jstr "/api/directory"), ("type", jstr "company_team_members")])

/-- Resource `blockza://team-members/category/{category}`: fixed limit 30. -/
def resource_team_members_by_category_request (category : String) : Request :=
  BlockzaClient.get_team_members_request (some 30) none (some category)

def resource_team_members_by_category_process (category : String)
    (resp : HttpResp) : Except PyErr JVal := do
  let tms ← BlockzaClient.get_team_members_process (some 30) none none resp
  .ok (jobj [("team_members", jarr tms), ("count", jnum tms.length),
    ("category", jstr category),
    ("source", jstr "/api/directory"), ("type", jstr "company_team_members")])

/-- Resource `blockza://events`: fixed limit 10. -/
def resource_all_events_request : Request :=
  BlockzaClient.get_events_request (some 10) none none none none none false

def resource_all_events_process (resp : HttpResp) : Except PyErr JVal := do
  let events ← BlockzaClient.get_events_process resp
  .ok (jobj [("events", jarr events), ("count", jnum events.length)])

/-- Resource `blockza://events/upcoming`: fixed limit 10, upstream
`upcoming=true`. -/
def resource_upcoming_events_request : Request :=
  BlockzaClient.get_events_request (some 10) none none none none none true

def resource_upcoming_events_process (resp : HttpResp) : Except PyErr JVal := do
  let events ← BlockzaClient.get_events_process resp
  .ok (jobj [("events", jarr events), ("count", jnum events.length)])

/-- Resource `blockza://events/{event_id}`. -/
def resource_event_by_id_process (event_id : String) (resp : HttpResp) : JVal :=
  match BlockzaClient.get_event_by_id_process event_id resp with
  | none => jobj [("error", jstr "Event not found")]
  | some event => event

/-- Resource `blockza://events/country/{country}`: fixed limit 30. -/
def resource_events_by_country_request (country : String) : Request :=
  BlockzaClient.get_events_request (some 30) none none (some country) none
    none false

def resource_events_by_country_process (resp : HttpResp) : Except PyErr JVal := do
  let events ← BlockzaClient.get_events_process resp
  .ok (jobj [("events", jarr events), ("count", jnum events.length)])

/-- Resource `blockza://podcasts`: fixed limit 10. -/
def resource_all_podcasts_request : Request :=
  BlockzaClient.get_podcasts_request (some 10) none none none none none

def resource_all_podcasts_process (resp : HttpResp) : Except PyErr JVal := do
  let podcasts ← BlockzaClient.get_podcasts_process resp
  .ok (jobj [("podcasts", jarr podcasts), ("count", jnum podcasts.length)])

/-- Resource `blockza://podcasts/{podcast_id}`. -/
def resource_podcast_by_id_process (podcast_id : String) (resp : HttpResp) :
    JVal :=
  match BlockzaClient.get_podcast_by_id_process podcast_id resp with
  | none => jobj [("error", jstr "Podcast not found")]
  | some podcast => podcast

/-- Resource `blockza://podcasts/category/{category}`: fixed limit 30. -/
def resource_podcasts_by_category_request (category : String) : Request :=
  BlockzaClient.get_podcasts_request (some 30) none none (some category)
    none none

def resource_podcasts_by_category_process (resp : HttpResp) :
    Except PyErr JVal := do
  let podcasts ← BlockzaClient.get_podcasts_process resp
  .ok (jobj [("podcasts", jarr podcasts), ("count", jnum podcasts.length)])

/-- Resource `blockza://podcasts/company/{company}`: fixed limit 30. -/
def resource_podcasts_by_company_request (company : String) : Request :=
  BlockzaClient.get_podcasts_request (some 30) none none none (some company)
    none

def resource_podcasts_by_company_process (resp : HttpResp) :
    Except PyErr JVal := do
  let podcasts ← BlockzaClient.get_podcasts_process resp
  .ok (jobj [("podcasts", jarr podcasts), ("count", jnum podcasts.length)])

/-- Resource `blockza://companies`: fixed limit 20. -/
def resource_all_companies_request : Request :=
  BlockzaClient.get_companies_request (some 20) none none

def resource_all_companies_process (resp : HttpResp) : Except PyErr JVal := do
  let companies ← BlockzaClient.get_companies_process resp
  .ok (jobj [("companies", jarr companies), ("count", jnum companies.length),
    ("source", jstr "/api/directory"), ("type", jstr "companies")])

/-- Resource `blockza://companies/{company_id}`: the matched company is
embedded RAW (no projection, no truncation, no derived `teamSize`). -/
def resource_company_by_id_process (company_id : String) (resp : HttpResp) :
    JVal :=
  match BlockzaClient.get_company_by_id_process company_id resp with
  | none => jobj [("error", jstr "Company not found")]
  | some company => jobj [("company", company),
      ("source", jstr "/api/directory"), ("type", jstr "company")]

/-- Resource `blockza://companies/category/{category}`: fixed limit 30. -/
def resource_companies_by_category_request (category : String) : Request :=
  BlockzaClient.get_companies_request (some 30) none (some category)

def resource_companies_by_category_process (category : String)
    (resp : HttpResp) : Except PyErr JVal := do
  let companies ← BlockzaClient.get_companies_process resp
  .ok (jobj [("companies", jarr companies), ("count", jnum companies.length),
    ("category", jstr category),
    ("source", jstr "/api/directory"), ("type", jstr "companies")])

/-! ## Shared helper lemmas -/

@[simp] theorem pyOkBind {α β : Type} (a : α) (f : α → Except PyErr β) :
    (Except.ok a : Except PyErr α) >>= f = f a := rfl

@[simp] theorem pyErrBind {α β : Type} (e : PyErr) (f : α → Except PyErr β) :
    (Except.error e : Except PyErr α) >>= f = .error e := rfl

@[simp] theorem pyOkBindE {α β : Type} (a : α) (f : α → Except PyErr β) :
    Except.bind (Except.ok a) f = f a := rfl

@[simp] theorem pyErrBindE {α β : Type} (e : PyErr) (f : α → Except PyErr β) :
    Except.bind (Except.error e) f = .error e := rfl

theorem strTake200_idem (s : String) : strTake200 (strTake200 s) = strTake200 s := by
  simp [strTake200, List.take_take]

theorem pySlice200_idem {D desc : JVal} (h : pySlice200 D = .ok desc) :
    pySlice200 desc = .ok desc := by
  cases D with
  | jstr s =>
      simp only [pySlice200] at h
      rw [← Except.ok.inj h]
      simp [pySlice200, strTake200_idem]
  | jarr xs =>
      simp only [pySlice200] at h
      rw [← Except.ok.inj h]
      simp [pySlice200, List.take_take]
  | jnull => exact absurd h (by simp [pySlice200])
  | jbool b => exact absurd h (by simp [pySlice200])
  | jnum n => exact absurd h (by simp [pySlice200])
  | jobj fs => exact absurd h (by simp [pySlice200])

/-! ## C5: idempotence of the per-entity field filters -/

/-- C5 (counterexample).  The claim "every per-entity field filter is
idempotent … in particular for `filter_podcast_fields` on records whose
image field is a nested object containing a url" fails exactly there:
on `{"image": {"url": "u"}}` the first application projects the image
object to the string `"u"`, and the second application — seeing a
non-dict image — replaces it by `None`, so filtering twice differs from
filtering once. -/
theorem filter_podcast_fields_not_idempotent :
    Except.bind
      (BlockzaClient.filter_podcast_fields (jobj [("image", jobj [("url", jstr "u")])]))
      BlockzaClient.filter_podcast_fields ≠
    BlockzaClient.filter_podcast_fields (jobj [("image", jobj [("url", jstr "u")])]) := by
  intro h
  have h2 : (Except.ok (jobj [("_id", jnull), ("title", jnull), ("description", jstr ""),
        ("shortDescription", jstr ""), ("slug", jnull), ("category", jnull),
        ("company", jnull), ("image", jnull), ("youtubeIframe", jnull),
        ("status", jnull), ("likes", jnum 0), ("views", jnum 0),
        ("createdAt", jnull)]) : Except PyErr JVal)
      = .ok (jobj [("_id", jnull), ("title", jnull), ("description", jstr ""),
        ("shortDescription", jstr ""), ("slug", jnull), ("category", jnull),
        ("company", jnull), ("image", jstr "u"), ("youtubeIframe", jnull),
        ("status", jnull), ("likes", jnum 0), ("views", jnum 0),
        ("createdAt", jnull)]) := h
  simp at h2

/-- C5 (amended).  The event, expert and team-member field filters are
idempotent (applying them to their own output reproduces it, and a
raised error is reproduced by the second application as well), but
`filter_podcast_fields` is not idempotent: there is a record — one
whose `image` is a nested object with a `url` — on which filtering
twice differs from filtering once. -/
theorem filters_idempotent_except_podcast (v cn : JVal) :
    Except.bind (BlockzaClient.filter_event_fields v)
      BlockzaClient.filter_event_fields
      = BlockzaClient.filter_event_fields v
  ∧ Except.bind (BlockzaClient.filter_expert_fields v)
      BlockzaClient.filter_expert_fields
      = BlockzaClient.filter_expert_fields v
  ∧ Except.bind (BlockzaClient.filter_team_member_fields v cn)
      (fun m => BlockzaClient.filter_team_member_fields m cn)
      = BlockzaClient.filter_team_member_fields v cn
  ∧ ∃ p, Except.bind (BlockzaClient.filter_podcast_fields p)
      BlockzaClient.filter_podcast_fields
      ≠ BlockzaClient.filter_podcast_fields p := by
  refine ⟨?_, ?_, ?_, ?_⟩
  · cases v with
    | jobj r =>
        rcases hS : pySlice200 (pyGetD r "description" (jstr "")) with e | desc
        · simp only [BlockzaClient.filter_event_fields]
          rw [hS]
          simp
        · have hslice := pySlice200_idem hS
          simp only [BlockzaClient.filter_event_fields]
          rw [hS]
          simp only [pyOkBind, pyOkBindE]
          simp [BlockzaClient.filter_event_fields, pyGetD, pyGet, lookupKey,
            List.find?, hslice]
    | jnull => rfl
    | jbool b => rfl
    | jnum n => rfl
    | jstr s => rfl
    | jarr xs => rfl
  · cases v <;> rfl
  · cases v <;> rfl
  · refine ⟨jobj [("image", jobj [("url", jstr "nested-url")])], ?_⟩
    intro h
    have h2 : (Except.ok (jobj [("_id", jnull), ("title", jnull), ("description", jstr ""),
          ("shortDescription", jstr ""), ("slug", jnull), ("category", jnull),
          ("company", jnull), ("image", jnull), ("youtubeIframe", jnull),
          ("status", jnull), ("likes", jnum 0), ("views", jnum 0),
          ("createdAt", jnull)]) : Except PyErr JVal)
        = .ok (jobj [("_id", jnull), ("title", jnull), ("description", jstr ""),
          ("shortDescription", jstr ""), ("slug", jnull), ("category", jnull),
          ("company", jnull), ("image", jstr "nested-url"), ("youtubeIframe", jnull),
          ("status", jnull), ("likes", jnum 0), ("views", jnum 0),
          ("createdAt", jnull)]) := h
    simp at h2

theorem pySliceTo_nil (n : Int) : pySliceTo n [] = [] := by
  unfold pySliceTo
  split <;> simp

/-! ## C4: accepted upstream body shapes -/

/-- C4 (counterexample).  `get_events` does NOT accept the
`{data: [...]}` envelope: for the one-event list it returns `[]` under
the envelope but a non-empty filtered list under the top-level array,
so the two body shapes do not produce the same result. -/
theorem get_events_rejects_data_envelope :
    BlockzaClient.get_events_process
        (.ok (jobj [("data", jarr [jobj [("_id", jstr "e1")]])])) = .ok []
  ∧ BlockzaClient.get_events_process
        (.ok (jarr [jobj [("_id", jstr "e1")]])) ≠ .ok [] := by
  constructor
  · rfl
  · intro h
    have h2 : (Except.ok [jobj [("_id", jstr "e1"), ("title", jnull),
        ("description", jstr ""), ("location", jnull), ("country", jnull),
        ("city", jnull), ("eventStartDate", jnull), ("eventEndDate", jnull),
        ("category", jnull), ("website", jnull), ("company", jnull)]]
        : Except PyErr (List JVal)) = .ok [] := h
    simp at h2

/-- C4 (amended).  Only `get_podcasts` and `get_experts` accept both a
top-level JSON array and a `{data: [...]}` envelope with the same
result.  `get_events` accepts only the top-level array (an envelope
yields `[]`), while `get_companies` and `get_team_members` accept only
the envelope (a top-level array yields `[]`, for every limit/filter
argument). -/
theorem envelope_shapes_per_accessor (L : List JVal) :
    BlockzaClient.get_podcasts_process (.ok (jarr L))
      = BlockzaClient.get_podcasts_process (.ok (jobj [("data", jarr L)]))
  ∧ BlockzaClient.get_experts_process (.ok (jarr L))
      = BlockzaClient.get_experts_process (.ok (jobj [("data", jarr L)]))
  ∧ BlockzaClient.get_events_process (.ok (jobj [("data", jarr L)])) = .ok []
  ∧ BlockzaClient.get_companies_process (.ok (jarr L)) = .ok []
  ∧ ∀ lim s c, BlockzaClient.get_team_members_process lim s c (.ok (jarr L))
      = .ok [] := by
  refine ⟨rfl, rfl, rfl, rfl, ?_⟩
  intro lim s c
  cases lim with
  | none => rfl
  | some l =>
      simp only [BlockzaClient.get_team_members_process, pyIter, concatMapExcept,
        pyOkBind, pyOkBindE]
      split <;> simp [pySliceTo_nil]

/-! ## C6: totality of the field filters on records with missing fields -/

def eventKeys : List String :=
  ["_id", "title", "description", "location", "country", "city",
   "eventStartDate", "eventEndDate", "category", "website", "company"]

def eventDefault (k : String) : JVal :=
  if k = "description" then jstr "" else jnull

def podcastKeys : List String :=
  ["_id", "title", "description", "shortDescription", "slug", "category",
   "company", "image", "youtubeIframe", "status", "likes", "views", "createdAt"]

def podcastDefault (k : String) : JVal :=
  if k = "description" ∨ k = "shortDescription" then jstr ""
  else if k = "likes" ∨ k = "views" then jnum 0
  else jnull

def expertKeys : List String :=
  ["_id", "name", "title", "email", "image", "linkedinUrl", "price",
   "bookingMethods", "status", "followers", "responseRate"]

def expertDefault (k : String) : JVal :=
  if k = "price" ∨ k = "followers" ∨ k = "responseRate" then jnum 0
  else if k = "bookingMethods" then jarr []
  else jnull

theorem pyGetD_of_none {r : List (String × JVal)} {k : String} {d : JVal}
    (h : lookupKey r k = none) : pyGetD r k d = d := by
  simp [pyGetD, h]

/-- C6 (confirmed).  Each field filter, applied to a dict record whose
`description` field is absent or a string (this is where the filters
slice; all other present values may be arbitrary), succeeds and
produces the fixed-shape output: the output's key list is exactly the
documented whitelist, and every expected key that is MISSING from the
input appears in the output with its type-appropriate default (`None`,
`""`, `0`, or `[]`).  For the podcast filter, whose identity is
`_id or id`, the `_id` default `None` is reached when both identity
fields are missing; the team-member filter additionally always carries
the given company value and the constant `memberType` tag. -/
theorem filters_total_on_missing_fields (r : List (String × JVal))
    (hd : ∃ s, pyGetD r "description" (jstr "") = jstr s) (cn : JVal) :
    (∃ oute, BlockzaClient.filter_event_fields (jobj r) = .ok (jobj oute)
      ∧ oute.map Prod.fst = eventKeys
      ∧ ∀ k ∈ eventKeys, lookupKey r k = none →
          lookupKey oute k = some (eventDefault k))
  ∧ (∃ outp, BlockzaClient.filter_podcast_fields (jobj r) = .ok (jobj outp)
      ∧ outp.map Prod.fst = podcastKeys
      ∧ (∀ k ∈ podcastKeys, k ≠ "_id" → lookupKey r k = none →
          lookupKey outp k = some (podcastDefault k))
      ∧ (lookupKey r "_id" = none → lookupKey r "id" = none →
          lookupKey outp "_id" = some jnull))
  ∧ (∃ outx, BlockzaClient.filter_expert_fields (jobj r) = .ok (jobj outx)
      ∧ outx.map Prod.fst = expertKeys
      ∧ ∀ k ∈ expertKeys, lookupKey r k = none →
          lookupKey outx k = some (expertDefault k))
  ∧ (∃ outt, BlockzaClient.filter_team_member_fields (jobj r) cn = .ok (jobj outt)
      ∧ outt.map Prod.fst = expertKeys ++ ["company", "memberType"]
      ∧ (∀ k ∈ expertKeys, lookupKey r k = none →
          lookupKey outt k = some (expertDefault k))
      ∧ lookupKey outt "company" = some cn
      ∧ lookupKey outt "memberType" = some (jstr "company_team_member")) := by
  obtain ⟨s, hs⟩ := hd
  have hS : pySlice200 (pyGetD r "description" (jstr ""))
      = .ok (jstr (strTake200 s)) := by
    rw [hs]; rfl
  refine ⟨?_, ?_, ?_, ?_⟩
  · refine ⟨[("_id", pyGet r "_id"), ("title", pyGet r "title"),
      ("description", jstr (strTake200 s)), ("location", pyGet r "location"),
      ("country", pyGet r "country"), ("city", pyGet r "city"),
      ("eventStartDate", pyGet r "eventStartDate"),
      ("eventEndDate", pyGet r "eventEndDate"), ("category", pyGet r "category"),
      ("website", pyGet r "website"), ("company", pyGet r "company")],
      ?_, rfl, ?_⟩
    · simp only [BlockzaClient.filter_event_fields]
      rw [hS]
      rfl
    · intro k hk hnone
      have hdef : ∀ d : JVal, pyGetD r k d = d := fun d => pyGetD_of_none hnone
      fin_cases hk <;>
        simp_all [lookupKey, List.find?, pyGet, eventDefault, strTake200]
      subst hs
      rfl
  · refine ⟨[("_id", pyOr (pyGet r "_id") (pyGet r "id")),
      ("title", pyGet r "title"), ("description", jstr (strTake200 s)),
      ("shortDescription", pyGetD r "shortDescription" (jstr "")),
      ("slug", pyGet r "slug"), ("category", pyGet r "category"),
      ("company", pyGet r "company"),
      ("image", match pyGetD r "image" (jobj []) with
        | jobj ir => pyGet ir "url"
        | _ => jnull),
      ("youtubeIframe", pyGet r "youtubeIframe"), ("status", pyGet r "status"),
      ("likes", pyGetD r "likes" (jnum 0)), ("views", pyGetD r "views" (jnum 0)),
      ("createdAt", pyGet r "createdAt")], ?_, rfl, ?_, ?_⟩
    · simp only [BlockzaClient.filter_podcast_fields]
      rw [hS]
      rfl
    · intro k hk hknot hnone
      have hdef : ∀ d : JVal, pyGetD r k d = d := fun d => pyGetD_of_none hnone
      fin_cases hk <;>
        simp_all [lookupKey, List.find?, pyGet, pyGetD, podcastDefault,
          strTake200]
      subst hs
      rfl
    · intro h1 h2
      simp [lookupKey, List.find?, pyOr, pyGet, pyGetD_of_none h1,
        pyGetD_of_none h2, JVal.truthy]
  · refine ⟨[("_id", pyGet r "_id"), ("name", pyGet r "name"),
      ("title", pyGet r "title"), ("email", pyGet r "email"),
      ("image", pyGet r "image"), ("linkedinUrl", pyGet r "linkedinUrl"),
      ("price", pyGetD r "price" (jnum 0)),
      ("bookingMethods", pyGetD r "bookingMethods" (jarr [])),
      ("status", pyGet r "status"), ("followers", pyGetD r "followers" (jnum 0)),
      ("responseRate", pyGetD r "responseRate" (jnum 0))], rfl, rfl, ?_⟩
    intro k hk hnone
    have hdef : ∀ d : JVal, pyGetD r k d = d := fun d => pyGetD_of_none hnone
    fin_cases hk <;>
      simp_all [lookupKey, List.find?, pyGet, expertDefault]
  · refine ⟨[("_id", pyGet r "_id"), ("name", pyGet r "name"),
      ("title", pyGet r "title"), ("email", pyGet r "email"),
      ("image", pyGet r "image"), ("linkedinUrl", pyGet r "linkedinUrl"),
      ("price", pyGetD r "price" (jnum 0)),
      ("bookingMethods", pyGetD r "bookingMethods" (jarr [])),
      ("status", pyGet r "status"), ("followers", pyGetD r "followers" (jnum 0)),
      ("responseRate", pyGetD r "responseRate" (jnum 0)),
      ("company", cn), ("memberType", jstr "company_team_member")],
      rfl, rfl, ?_, rfl, rfl⟩
    intro k hk hnone
    have hdef : ∀ d : JVal, pyGetD r k d = d := fun d => pyGetD_of_none hnone
    fin_cases hk <;>
      simp_all [lookupKey, List.find?, pyGet, expertDefault]

/-- C6 (witness).  The theorem instantiated at the empty record (every
expected field missing) and a concrete company name. -/
theorem filters_total_on_missing_fields_witness :
    (∃ s, pyGetD [] "description" (jstr "") = jstr s)
  ∧ ((∃ oute, BlockzaClient.filter_event_fields (jobj []) = .ok (jobj oute)
      ∧ oute.map Prod.fst = eventKeys
      ∧ ∀ k ∈ eventKeys, lookupKey [] k = none →
          lookupKey oute k = some (eventDefault k))
    ∧ (∃ outp, BlockzaClient.filter_podcast_fields (jobj []) = .ok (jobj outp)
      ∧ outp.map Prod.fst = podcastKeys
      ∧ (∀ k ∈ podcastKeys, k ≠ "_id" → lookupKey [] k = none →
          lookupKey outp k = some (podcastDefault k))
      ∧ (lookupKey [] "_id" = none → lookupKey [] "id" = none →
          lookupKey outp "_id" = some jnull))
    ∧ (∃ outx, BlockzaClient.filter_expert_fields (jobj []) = .ok (jobj outx)
      ∧ outx.map Prod.fst = expertKeys
      ∧ ∀ k ∈ expertKeys, lookupKey [] k = none →
          lookupKey outx k = some (expertDefault k))
    ∧ (∃ outt, BlockzaClient.filter_team_member_fields (jobj [])
          (jstr "Acme") = .ok (jobj outt)
      ∧ outt.map Prod.fst = expertKeys ++ ["company", "memberType"]
      ∧ (∀ k ∈ expertKeys, lookupKey [] k = none →
          lookupKey outt k = some (expertDefault k))
      ∧ lookupKey outt "company" = some (jstr "Acme")
      ∧ lookupKey outt "memberType" = some (jstr "company_team_member"))) :=
  ⟨⟨"", rfl⟩, filters_total_on_missing_fields [] ⟨"", rfl⟩ (jstr "Acme")⟩

/-! ## C7: truncation to 200 characters and image projection -/

theorem strTake200_length_le (s : String) : (strTake200 s).length ≤ 200 := by
  show (s.data.take 200).length ≤ 200
  simp

set_option maxRecDepth 4000 in
/-- C7 (confirmed).  The fields the filters truncate come out at most
200 characters long: the event filter's and podcast filter's
`description` and the company projection's `shortDescription` (stated
for records whose sliced field is a string, and a `teamMembers` value
`len()` accepts, as in the data model).  A podcast's nested `image`
object yields only a URL string, or `None` when the image is absent or
malformed (not a dict, or without a string `url`).  End to end: for an
upstream event `{"_id": "e1", "title": "DevCon", "description":
"x"*300}`, `list_events(limit=5)` forwards `limit=5` upstream and
returns the `{"events": [...], "count": 1}` envelope whose single
event's description is the 200-character truncation. -/
theorem truncation_and_image_projection :
    (∀ (r : List (String × JVal)) (s : String),
      pyGetD r "description" (jstr "") = jstr s →
      ∃ oute t, BlockzaClient.filter_event_fields (jobj r) = .ok (jobj oute)
        ∧ lookupKey oute "description" = some (jstr t) ∧ t.length ≤ 200)
  ∧ (∀ (r : List (String × JVal)) (s : String),
      pyGetD r "description" (jstr "") = jstr s →
      (∀ fs, pyGetD r "image" (jobj []) = jobj fs →
        lookupKey fs "url" = none ∨ ∃ u, lookupKey fs "url" = some (jstr u)) →
      ∃ outp t, BlockzaClient.filter_podcast_fields (jobj r) = .ok (jobj outp)
        ∧ lookupKey outp "description" = some (jstr t) ∧ t.length ≤ 200
        ∧ (lookupKey outp "image" = some jnull
            ∨ ∃ u, lookupKey outp "image" = some (jstr u)))
  ∧ (∀ (r : List (String × JVal)) (s : String) (n : Int),
      pyGetD r "shortDescription" (jstr "") = jstr s →
      pyLen (pyGetD r "teamMembers" (jarr [])) = .ok n →
      ∃ outc t, BlockzaClient.filterCompanyEntry (jobj r) = .ok (jobj outc)
        ∧ lookupKey outc "shortDescription" = some (jstr t) ∧ t.length ≤ 200)
  ∧ ((list_events_request 5 0 false).params
        = [("limit", PVal.pint 5), ("offset", PVal.pint 0)]
      ∧ list_events_process (.ok (jarr [jobj [("_id", jstr "e1"),
          ("title", jstr "DevCon"),
          ("description", jstr (String.mk (List.replicate 300 'x')))]]))
        = .ok (jobj [("events", jarr [jobj [("_id", jstr "e1"),
            ("title", jstr "DevCon"),
            ("description", jstr (String.mk (List.replicate 200 'x'))),
            ("location", jnull), ("country", jnull), ("city", jnull),
            ("eventStartDate", jnull), ("eventEndDate", jnull),
            ("category", jnull), ("website", jnull), ("company", jnull)]]),
          ("count", jnum 1)])
      ∧ (String.mk (List.replicate 200 'x')).length ≤ 200) := by
  refine ⟨?_, ?_, ?_, rfl, ?_, by decide⟩
  · intro r s hs
    have hS : pySlice200 (pyGetD r "description" (jstr ""))
        = .ok (jstr (strTake200 s)) := by rw [hs]; rfl
    refine ⟨[("_id", pyGet r "_id"), ("title", pyGet r "title"),
      ("description", jstr (strTake200 s)), ("location", pyGet r "location"),
      ("country", pyGet r "country"), ("city", pyGet r "city"),
      ("eventStartDate", pyGet r "eventStartDate"),
      ("eventEndDate", pyGet r "eventEndDate"), ("category", pyGet r "category"),
      ("website", pyGet r "website"), ("company", pyGet r "company")],
      strTake200 s, ?_, rfl, strTake200_length_le s⟩
    simp only [BlockzaClient.filter_event_fields]
    rw [hS]
    rfl
  · intro r s hs himg
    have hS : pySlice200 (pyGetD r "description" (jstr ""))
        = .ok (jstr (strTake200 s)) := by rw [hs]; rfl
    refine ⟨[("_id", pyOr (pyGet r "_id") (pyGet r "id")),
      ("title", pyGet r "title"), ("description", jstr (strTake200 s)),
      ("shortDescription", pyGetD r "shortDescription" (jstr "")),
      ("slug", pyGet r "slug"), ("category", pyGet r "category"),
      ("company", pyGet r "company"),
      ("image", match pyGetD r "image" (jobj []) with
        | jobj ir => pyGet ir "url"
        | _ => jnull),
      ("youtubeIframe", pyGet r "youtubeIframe"), ("status", pyGet r "status"),
      ("likes", pyGetD r "likes" (jnum 0)), ("views", pyGetD r "views" (jnum 0)),
      ("createdAt", pyGet r "createdAt")],
      strTake200 s, ?_, rfl, strTake200_length_le s, ?_⟩
    · simp only [BlockzaClient.filter_podcast_fields]
      rw [hS]
      rfl
    · have himgv : lookupKey [("_id", pyOr (pyGet r "_id") (pyGet r "id")),
        ("title", pyGet r "title"), ("description", jstr (strTake200 s)),
        ("shortDescription", pyGetD r "shortDescription" (jstr "")),
        ("slug", pyGet r "slug"), ("category", pyGet r "category"),
        ("company", pyGet r "company"),
        ("image", match pyGetD r "image" (jobj []) with
          | jobj ir => pyGet ir "url"
          | _ => jnull),
        ("youtubeIframe", pyGet r "youtubeIframe"), ("status", pyGet r "status"),
        ("likes", pyGetD r "likes" (jnum 0)), ("views", pyGetD r "views" (jnum 0)),
        ("createdAt", pyGet r "createdAt")] "image"
          = some (match pyGetD r "image" (jobj []) with
            | jobj ir => pyGet ir "url"
            | _ => jnull) := rfl
      rw [himgv]
      rcases hI : pyGetD r "image" (jobj []) with _ | b | nn | ss | xs | fs
      · exact Or.inl rfl
      · exact Or.inl rfl
      · exact Or.inl rfl
      · exact Or.inl rfl
      · exact Or.inl rfl
      · rcases himg fs hI with hnone | ⟨u, hu⟩
        · left
          simp [pyGet, pyGetD_of_none hnone]
        · right
          exact ⟨u, by simp [pyGet, pyGetD, hu]⟩
  · intro r s n hsd hlen
    have hS2 : pySlice200 (pyGetD r "shortDescription" (jstr ""))
        = .ok (jstr (strTake200 s)) := by rw [hsd]; rfl
    refine ⟨[("_id", pyGet r "_id"), ("name", pyGet r "name"),
      ("slug", pyGet r "slug"), ("category", pyGet r "category"),
      ("shortDescription", jstr (strTake200 s)), ("logo", pyGet r "logo"),
      ("website", pyGet r "url"), ("founderName", pyGet r "founderName"),
      ("verificationStatus", pyGet r "verificationStatus"),
      ("teamSize", jnum n), ("likes", pyGetD r "likes" (jnum 0)),
      ("views", pyGetD r "views" (jnum 0))],
      strTake200 s, ?_, rfl, strTake200_length_le s⟩
    simp only [BlockzaClient.filterCompanyEntry]
    rw [hS2]
    simp only [pyOkBind]
    rw [hlen]
    simp only [pyOkBind]
  · rfl

/-- C7 (witness).  The truncation and image statements instantiated at
concrete records. -/
theorem truncation_and_image_projection_witness :
    (∃ oute t, BlockzaClient.filter_event_fields
        (jobj [("description", jstr "hello")]) = .ok (jobj oute)
      ∧ lookupKey oute "description" = some (jstr t) ∧ t.length ≤ 200)
  ∧ (∃ outp t, BlockzaClient.filter_podcast_fields
        (jobj [("description", jstr "hello"),
          ("image", jobj [("url", jstr "http://x")])]) = .ok (jobj outp)
      ∧ lookupKey outp "description" = some (jstr t) ∧ t.length ≤ 200
      ∧ (lookupKey outp "image" = some jnull
          ∨ ∃ u, lookupKey outp "image" = some (jstr u)))
  ∧ (∃ outc t, BlockzaClient.filterCompanyEntry (jobj []) = .ok (jobj outc)
      ∧ lookupKey outc "shortDescription" = some (jstr t) ∧ t.length ≤ 200) :=
  ⟨truncation_and_image_projection.1 [("description", jstr "hello")] "hello" rfl,
   truncation_and_image_projection.2.1
     [("description", jstr "hello"), ("image", jobj [("url", jstr "http://x")])]
     "hello" rfl
     (fun fs h => Or.inr ⟨"http://x", by rw [← JVal.jobj.inj h]; rfl⟩),
   truncation_and_image_projection.2.2.1 [] "" 0 rfl rfl⟩

/-! ## C2: clamping the requested limit before calling upstream -/

/-- Any `limit` query parameter carried by the request is an int
bounded by `C`. -/
def limitParamLe (req : Request) (C : Int) : Prop :=
  ∀ v, ("limit", v) ∈ req.params → ∃ n, v = PVal.pint n ∧ n ≤ C

theorem mem_optIntParam {k k' : String} {v : PVal} {o : Option Int}
    (h : (k', v) ∈ optIntParam k o) : k' = k ∧ ∃ n, o = some n ∧ v = .pint n := by
  cases o <;> simp_all [optIntParam]

theorem mem_optStrParam {k k' : String} {v : PVal} {o : Option String}
    (h : (k', v) ∈ optStrParam k o) : k' = k := by
  cases o with
  | none => simp [optStrParam] at h
  | some s => by_cases hs : s = "" <;> simp_all [optStrParam]

theorem events_request_limit {lim off : Option Int} {se co ci ca : Option String}
    {u : Bool} {v : PVal}
    (h : ("limit", v) ∈ (BlockzaClient.get_events_request lim off se co ci ca u).params) :
    ∃ n, lim = some n ∧ v = .pint n := by
  simp only [BlockzaClient.get_events_request, List.append_assoc,
    List.mem_append] at h
  rcases h with h | h | h | h | h | h | h
  · exact (mem_optIntParam h).2
  · exact absurd (mem_optIntParam h).1 (by decide)
  · exact absurd (mem_optStrParam h) (by decide)
  · exact absurd (mem_optStrParam h) (by decide)
  · exact absurd (mem_optStrParam h) (by decide)
  · exact absurd (mem_optStrParam h) (by decide)
  · cases u <;> simp_all

theorem events_limit_le {C : Int} (lim : Int) (hC : lim ≤ C)
    (off : Option Int) (se co ci ca : Option String) (u : Bool) :
    limitParamLe (BlockzaClient.get_events_request (some lim) off se co ci ca u) C := by
  intro v hv
  obtain ⟨n, hn, hv⟩ := events_request_limit hv
  refine ⟨n, hv, ?_⟩
  injection hn with h2
  omega

theorem podcasts_request_limit {lim off : Option Int}
    {se ca co st : Option String} {v : PVal}
    (h : ("limit", v) ∈ (BlockzaClient.get_podcasts_request lim off se ca co st).params) :
    ∃ n, lim = some n ∧ v = .pint n := by
  simp only [BlockzaClient.get_podcasts_request, List.append_assoc,
    List.mem_append] at h
  rcases h with h | h | h | h | h | h
  · exact (mem_optIntParam h).2
  · exact absurd (mem_optIntParam h).1 (by decide)
  · exact absurd (mem_optStrParam h) (by decide)
  · exact absurd (mem_optStrParam h) (by decide)
  · exact absurd (mem_optStrParam h) (by decide)
  · exact absurd (mem_optStrParam h) (by decide)

theorem podcasts_limit_le {C : Int} (lim : Int) (hC : lim ≤ C)
    (off : Option Int) (se ca co st : Option String) :
    limitParamLe (BlockzaClient.get_podcasts_request (some lim) off se ca co st) C := by
  intro v hv
  obtain ⟨n, hn, hv⟩ := podcasts_request_limit hv
  refine ⟨n, hv, ?_⟩
  injection hn with h2
  omega

theorem experts_request_limit {lim off : Option Int} {se : Option String}
    {v : PVal}
    (h : ("limit", v) ∈ (BlockzaClient.get_experts_request lim off se).params) :
    ∃ n, lim = some n ∧ v = .pint n := by
  simp only [BlockzaClient.get_experts_request, List.append_assoc,
    List.mem_append] at h
  rcases h with h | h | h
  · exact (mem_optIntParam h).2
  · exact absurd (mem_optIntParam h).1 (by decide)
  · exact absurd (mem_optStrParam h) (by decide)

theorem experts_limit_le {C : Int} (lim : Int) (hC : lim ≤ C)
    (off : Option Int) (se : Option String) :
    limitParamLe (BlockzaClient.get_experts_request (some lim) off se) C := by
  intro v hv
  obtain ⟨n, hn, hv⟩ := experts_request_limit hv
  refine ⟨n, hv, ?_⟩
  injection hn with h2
  omega

theorem team_members_request_limit {lim : Option Int} {se ca : Option String}
    {v : PVal}
    (h : ("limit", v) ∈ (BlockzaClient.get_team_members_request lim se ca).params) :
    ∃ n, lim = some n ∧ v = .pint n := by
  simp only [BlockzaClient.get_team_members_request, List.append_assoc,
    List.mem_append] at h
  rcases h with h | h | h
  · exact (mem_optIntParam h).2
  · exact absurd (mem_optStrParam h) (by decide)
  · exact absurd (mem_optStrParam h) (by decide)

theorem team_members_limit_le {C : Int} (lim : Int) (hC : lim ≤ C)
    (se ca : Option String) :
    limitParamLe (BlockzaClient.get_team_members_request (some lim) se ca) C := by
  intro v hv
  obtain ⟨n, hn, hv⟩ := team_members_request_limit hv
  refine ⟨n, hv, ?_⟩
  injection hn with h2
  omega

theorem companies_request_limit {lim : Option Int} {se ca : Option String}
    {v : PVal}
    (h : ("limit", v) ∈ (BlockzaClient.get_companies_request lim se ca).params) :
    ∃ n, lim = some n ∧ v = .pint n := by
  simp only [BlockzaClient.get_companies_request, List.append_assoc,
    List.mem_append] at h
  rcases h with h | h | h
  · exact (mem_optIntParam h).2
  · exact absurd (mem_optStrParam h) (by decide)
  · exact absurd (mem_optStrParam h) (by decide)

theorem companies_limit_le {C : Int} (lim : Int) (hC : lim ≤ C)
    (se ca : Option String) :
    limitParamLe (BlockzaClient.get_companies_request (some lim) se ca) C := by
  intro v hv
  obtain ⟨n, hn, hv⟩ := companies_request_limit hv
  refine ⟨n, hv, ?_⟩
  injection hn with h2
  omega

/-- C2 (counterexample).  `get_top_experts` documents a ceiling of 15,
yet for the requested limit 16 (indeed for every requested limit) the
upstream GET it issues carries `limit=100`, which exceeds 15 — the
claim "the limit forwarded upstream, when any is sent, is at most C"
fails at this adapter. -/
theorem get_top_experts_requests_100 :
    (16 : Int) > 15
  ∧ (get_top_experts_request 16).params = [("limit", PVal.pint 100)]
  ∧ ¬(100 : Int) ≤ 15 := ⟨by decide, rfl, by decide⟩

/-- C2 (amended).  For every caller-requested limit (hence in
particular for 1..1000), every tool adapter clamps the limit it
forwards upstream to its ceiling — 20 for the `list_*` tools and 15
for the `search_*`/by-category/by-company tools — with two exceptions:
`get_podcasts_by_category` forwards NO limit upstream (it truncates
locally instead), and `get_top_experts` always asks upstream for
`limit=100` regardless of the requested limit. -/
theorem limit_clamping_amended (l off : Int) (u : Bool)
    (q cat comp : String) (co ci oc oca : Option String) :
    limitParamLe (list_events_request l off u) 20
  ∧ limitParamLe (search_events_request q l co ci) 15
  ∧ limitParamLe (get_upcoming_events_request l) 15
  ∧ limitParamLe (search_events_by_location_request co ci l) 15
  ∧ limitParamLe (list_podcasts_request l off) 20
  ∧ limitParamLe (search_podcasts_request q l oc oca) 15
  ∧ (∀ v, ("limit", v) ∉ (get_podcasts_by_category_request cat).params)
  ∧ limitParamLe (search_podcasts_by_company_request comp l) 15
  ∧ limitParamLe (list_experts_request l off) 20
  ∧ limitParamLe (search_experts_request q l) 15
  ∧ limitParamLe (list_team_members_request l off) 20
  ∧ limitParamLe (search_team_members_request q l oca) 15
  ∧ limitParamLe (get_team_members_by_company_request comp l) 15
  ∧ limitParamLe (get_team_members_by_category_request cat l) 15
  ∧ limitParamLe (list_companies_request l off) 20
  ∧ limitParamLe (search_companies_request q l oca) 15
  ∧ limitParamLe (get_companies_by_category_request cat l) 15
  ∧ (get_top_experts_request l).params = [("limit", PVal.pint 100)] := by
  refine ⟨events_limit_le _ (min_le_right l 20) _ _ _ _ _ _,
    events_limit_le _ (min_le_right l 15) _ _ _ _ _ _,
    events_limit_le _ (min_le_right l 15) _ _ _ _ _ _,
    events_limit_le _ (min_le_right l 15) _ _ _ _ _ _,
    podcasts_limit_le _ (min_le_right l 20) _ _ _ _ _,
    podcasts_limit_le _ (min_le_right l 15) _ _ _ _ _,
    ?_,
    podcasts_limit_le _ (min_le_right l 15) _ _ _ _ _,
    experts_limit_le _ (min_le_right l 20) _ _,
    experts_limit_le _ (min_le_right l 15) _ _,
    team_members_limit_le _ (min_le_right l 20) _ _,
    team_members_limit_le _ (min_le_right l 15) _ _,
    team_members_limit_le _ (min_le_right l 15) _ _,
    team_members_limit_le _ (min_le_right l 15) _ _,
    companies_limit_le _ (min_le_right l 20) _ _,
    companies_limit_le _ (min_le_right l 15) _ _,
    companies_limit_le _ (min_le_right l 15) _ _,
    rfl⟩
  intro v hv
  obtain ⟨n, hn, _⟩ := podcasts_request_limit hv
  exact Option.noConfusion hn

/-! ## C8/C9: by-id lookups as listing + linear scan -/

/-- The value is a Python dict. -/
def IsObj (e : JVal) : Prop := ∃ fr, e = jobj fr

/-- The match predicate of the `_id` scans, as a `List.find?` test. -/
def idMatch (key idv : String) (e : JVal) : Bool :=
  match e with
  | jobj fr => pyEqStr (pyGet fr key) idv
  | _ => false

/-- The two-field match predicate of `get_podcast_by_id`. -/
def podcastIdMatch (idv : String) (e : JVal) : Bool :=
  match e with
  | jobj fr => pyEqStr (pyGet fr "_id") idv || pyEqStr (pyGet fr "id") idv
  | _ => false

theorem filter_event_ok_jobj : ∀ x o,
    BlockzaClient.filter_event_fields x = .ok o → IsObj o := by
  intro x o h
  cases x with
  | jobj r =>
      rcases hS : pySlice200 (pyGetD r "description" (jstr "")) with e | d <;>
        simp only [BlockzaClient.filter_event_fields, hS, pyOkBind, pyErrBind] at h
      · exact absurd h (by simp)
      · exact ⟨_, (Except.ok.inj h).symm⟩
  | jnull => exact absurd h (by simp [BlockzaClient.filter_event_fields])
  | jbool b => exact absurd h (by simp [BlockzaClient.filter_event_fields])
  | jnum n => exact absurd h (by simp [BlockzaClient.filter_event_fields])
  | jstr s => exact absurd h (by simp [BlockzaClient.filter_event_fields])
  | jarr xs => exact absurd h (by simp [BlockzaClient.filter_event_fields])

theorem filter_podcast_ok_jobj : ∀ x o,
    BlockzaClient.filter_podcast_fields x = .ok o → IsObj o := by
  intro x o h
  cases x with
  | jobj r =>
      rcases hS : pySlice200 (pyGetD r "description" (jstr "")) with e | d <;>
        simp only [BlockzaClient.filter_podcast_fields, hS, pyOkBind, pyErrBind] at h
      · exact absurd h (by simp)
      · exact ⟨_, (Except.ok.inj h).symm⟩
  | jnull => exact absurd h (by simp [BlockzaClient.filter_podcast_fields])
  | jbool b => exact absurd h (by simp [BlockzaClient.filter_podcast_fields])
  | jnum n => exact absurd h (by simp [BlockzaClient.filter_podcast_fields])
  | jstr s => exact absurd h (by simp [BlockzaClient.filter_podcast_fields])
  | jarr xs => exact absurd h (by simp [BlockzaClient.filter_podcast_fields])

theorem filter_team_member_ok_jobj : ∀ x cn o,
    BlockzaClient.filter_team_member_fields x cn = .ok o → IsObj o := by
  intro x cn o h
  cases x <;> simp only [BlockzaClient.filter_team_member_fields] at h
  case jobj r => exact ⟨_, (Except.ok.inj h).symm⟩
  all_goals exact absurd h (by simp)

theorem mapExcept_all_jobj {f : JVal → Except PyErr JVal}
    (hf : ∀ x o, f x = .ok o → IsObj o) :
    ∀ {xs l}, mapExcept f xs = .ok l → ∀ e ∈ l, IsObj e := by
  intro xs
  induction xs with
  | nil =>
      intro l h e he
      simp only [mapExcept] at h
      rw [← Except.ok.inj h] at he
      simp at he
  | cons x xs ih =>
      intro l h e he
      simp only [mapExcept] at h
      rcases hx : f x with ex | y
      · rw [hx] at h; simp at h
      · rw [hx] at h
        simp only [pyOkBind] at h
        rcases hxs : mapExcept f xs with e2 | ys
        · rw [hxs] at h; simp at h
        · rw [hxs] at h
          simp only [pyOkBind] at h
          rw [← Except.ok.inj h] at he
          rcases List.mem_cons.mp he with rfl | hmem
          · exact hf x e hx
          · exact ih hxs e hmem

theorem concatMapExcept_all_jobj {f : JVal → Except PyErr (List JVal)}
    (hf : ∀ x ys, f x = .ok ys → ∀ e ∈ ys, IsObj e) :
    ∀ {xs l}, concatMapExcept f xs = .ok l → ∀ e ∈ l, IsObj e := by
  intro xs
  induction xs with
  | nil =>
      intro l h e he
      simp only [concatMapExcept] at h
      rw [← Except.ok.inj h] at he
      simp at he
  | cons x xs ih =>
      intro l h e he
      simp only [concatMapExcept] at h
      rcases hx : f x with ex | ys
      · rw [hx] at h; simp at h
      · rw [hx] at h
        simp only [pyOkBind] at h
        rcases hxs : concatMapExcept f xs with e2 | zs
        · rw [hxs] at h; simp at h
        · rw [hxs] at h
          simp only [pyOkBind] at h
          rw [← Except.ok.inj h] at he
          rcases List.mem_append.mp he with hmem | hmem
          · exact hf x ys hx e hmem
          · exact ih hxs e hmem

theorem processMembers_all_jobj {search : Option String} {cn : JVal} :
    ∀ {ms l}, BlockzaClient.processMembers search cn ms = .ok l →
      ∀ e ∈ l, IsObj e := by
  intro ms
  induction ms with
  | nil =>
      intro l h e he
      simp only [BlockzaClient.processMembers] at h
      rw [← Except.ok.inj h] at he
      simp at he
  | cons m ms ih =>
      intro l h e he
      simp only [BlockzaClient.processMembers] at h
      rcases hfv : BlockzaClient.filter_team_member_fields m cn with ex | fv
      · rw [hfv] at h; simp at h
      · rw [hfv] at h
        simp only [pyOkBind] at h
        rcases hk : BlockzaClient.memberKeep search fv with ex | keep
        · rw [hk] at h; simp at h
        · rw [hk] at h
          simp only [pyOkBind] at h
          rcases hrest : BlockzaClient.processMembers search cn ms with ex | rest
          · rw [hrest] at h; simp at h
          · rw [hrest] at h
            simp only [pyOkBind] at h
            rw [← Except.ok.inj h] at he
            cases keep with
            | true =>
                simp only [if_pos] at he
                rcases List.mem_cons.mp he with rfl | hmem
                · exact filter_team_member_ok_jobj m cn e hfv
                · exact ih hrest e hmem
            | false =>
                simp only [Bool.false_eq_true, if_false] at he
                exact ih hrest e he

theorem processCompanyData_all_jobj {search company : Option String} {cd : JVal}
    {l : List JVal}
    (h : BlockzaClient.processCompanyData search company cd = .ok l) :
    ∀ e ∈ l, IsObj e := by
  cases cd with
  | jobj r =>
      simp only [BlockzaClient.processCompanyData] at h
      rcases hsk : BlockzaClient.companySkip company (pyGetD r "name" (jstr ""))
        with ex | skip
      · rw [hsk] at h; simp at h
      · rw [hsk] at h
        simp only [pyOkBind] at h
        cases skip with
        | true =>
            intro e he
            simp only [if_pos] at h
            rw [← Except.ok.inj h] at he
            simp at he
        | false =>
            simp only [Bool.false_eq_true, if_false] at h
            by_cases hf : (List.find? (fun p => p.1 == "teamMembers") r).isSome
            · simp only [hf, if_pos] at h
              rcases hIt : pyIter (pyGet r "teamMembers") with ex | members
              · rw [hIt] at h; simp at h
              · rw [hIt] at h
                simp only [pyOkBind] at h
                exact processMembers_all_jobj h
            · simp only [hf, if_false] at h
              intro e he
              rw [← Except.ok.inj h] at he
              simp at he
  | jnull => exact absurd h (by simp [BlockzaClient.processCompanyData])
  | jbool b => exact absurd h (by simp [BlockzaClient.processCompanyData])
  | jnum n => exact absurd h (by simp [BlockzaClient.processCompanyData])
  | jstr s => exact absurd h (by simp [BlockzaClient.processCompanyData])
  | jarr xs => exact absurd h (by simp [BlockzaClient.processCompanyData])

theorem pySliceTo_subset (n : Int) (xs : List JVal) : pySliceTo n xs ⊆ xs := by
  unfold pySliceTo
  split <;> exact List.take_subset _ _

theorem get_team_members_all_jobj {limit : Option Int}
    {search company : Option String} {resp : HttpResp} {l : List JVal}
    (h : BlockzaClient.get_team_members_process limit search company resp = .ok l) :
    ∀ e ∈ l, IsObj e := by
  cases resp with
  | ok data =>
      simp only [BlockzaClient.get_team_members_process] at h
      generalize (match data with
        | jobj r => pyGetD r "data" (jarr [])
        | _ => jarr []) = cv at h
      rcases hIt : pyIter cv with ex | cos
      · rw [hIt] at h; simp at h
      · rw [hIt] at h
        simp only [pyOkBind] at h
        rcases hCm : concatMapExcept
            (BlockzaClient.processCompanyData search company) cos with ex | tms
        · rw [hCm] at h; simp at h
        · rw [hCm] at h
          simp only [pyOkBind] at h
          have htms : ∀ e ∈ tms, IsObj e :=
            concatMapExcept_all_jobj
              (fun x ys hx => processCompanyData_all_jobj hx) hCm
          intro e he
          rw [← Except.ok.inj h] at he
          rcases limit with _ | n
          · exact htms e he
          · by_cases hn : n = 0
            · simp [hn] at he
              exact htms e he
            · simp [hn] at he
              exact htms e (pySliceTo_subset n tms he)
  | transportError =>
      intro e he
      simp only [BlockzaClient.get_team_members_process] at h
      rw [← Except.ok.inj h] at he
      simp at he
  | statusError c =>
      intro e he
      simp only [BlockzaClient.get_team_members_process] at h
      rw [← Except.ok.inj h] at he
      simp at he
  | badJson =>
      intro e he
      simp only [BlockzaClient.get_team_members_process] at h
      rw [← Except.ok.inj h] at he
      simp at he

theorem scanById_eq_find (key idv : String) :
    ∀ (l : List JVal), (∀ e ∈ l, IsObj e) →
    BlockzaClient.scanById key idv l = .ok (l.find? (idMatch key idv)) := by
  intro l
  induction l with
  | nil => intro _; rfl
  | cons e es ih =>
      intro h
      obtain ⟨fr, rfl⟩ := h e (List.mem_cons_self e es)
      simp only [BlockzaClient.scanById, List.find?, idMatch]
      by_cases hm : pyEqStr (pyGet fr key) idv = true
      · simp [hm]
      · simp only [Bool.not_eq_true] at hm
        simp [hm, ih (fun x hx => h x (List.mem_cons_of_mem _ hx))]

theorem scanPodcastById_eq_find (idv : String) :
    ∀ (l : List JVal), (∀ e ∈ l, IsObj e) →
    BlockzaClient.scanPodcastById idv l
      = .ok (l.find? (podcastIdMatch idv)) := by
  intro l
  induction l with
  | nil => intro _; rfl
  | cons e es ih =>
      intro h
      obtain ⟨fr, rfl⟩ := h e (List.mem_cons_self e es)
      simp only [BlockzaClient.scanPodcastById, List.find?, podcastIdMatch]
      by_cases hm : (pyEqStr (pyGet fr "_id") idv
          || pyEqStr (pyGet fr "id") idv) = true
      · simp [hm]
      · simp only [Bool.not_eq_true] at hm
        simp [hm, ih (fun x hx => h x (List.mem_cons_of_mem _ hx))]

/-- C8 (counterexample).  `get_expert_by_id("e1")` issues a GET of the
direct per-expert endpoint `/api/experts/e1`; its request is not the
expert-listing request, so the claim that EVERY "get by id" fetches a
listing and linearly scans it fails for experts. -/
theorem get_expert_by_id_direct_endpoint :
    (BlockzaClient.get_expert_by_id_request "e1").url
      = "https://api.blockza.io/api/experts/e1"
  ∧ (BlockzaClient.get_experts_request none none none).url
      = "https://api.blockza.io/api/experts"
  ∧ BlockzaClient.get_expert_by_id_request "e1"
      ≠ BlockzaClient.get_experts_request none none none := by
  refine ⟨rfl, rfl, by decide⟩

/-- C8 (amended).  The by-id lookups for events, podcasts, team members
and companies fetch one listing and linearly scan it: whenever the
listing accessor (at the lookup's fixed arguments — no arguments for
events/podcasts/companies, `limit=1000` for team members) succeeds with
list `l`, the lookup returns exactly `l.find?` of the identity
predicate (`_id ==` for events/team members/companies, `_id == or
id ==` for podcasts; companies scan the raw `data` list).  The lookups'
requests are the corresponding listing requests.  `get_expert_by_id`
is the exception: it issues a direct GET of `/api/experts/{id}` with no
parameters and maps a truthy body through `filter_expert_fields`
without any scan. -/
theorem lookup_by_id_listing_scan (idv : String) (resp : HttpResp) :
    (∀ l, BlockzaClient.get_events_process resp = .ok l →
      BlockzaClient.get_event_by_id_process idv resp
        = l.find? (idMatch "_id" idv))
  ∧ (∀ l, BlockzaClient.get_podcasts_process resp = .ok l →
      BlockzaClient.get_podcast_by_id_process idv resp
        = l.find? (podcastIdMatch idv))
  ∧ (∀ l, BlockzaClient.get_team_members_process (some 1000) none none resp
        = .ok l →
      BlockzaClient.get_team_member_by_id_process idv resp
        = l.find? (idMatch "_id" idv))
  ∧ (∀ cs, (∀ e ∈ cs, IsObj e) →
      BlockzaClient.get_company_by_id_process idv (.ok (jobj [("data", jarr cs)]))
        = cs.find? (idMatch "_id" idv))
  ∧ BlockzaClient.get_event_by_id_request
      = BlockzaClient.get_events_request none none none none none none false
  ∧ BlockzaClient.get_podcast_by_id_request
      = BlockzaClient.get_podcasts_request none none none none none none
  ∧ BlockzaClient.get_team_member_by_id_request
      = BlockzaClient.get_team_members_request (some 1000) none none
  ∧ BlockzaClient.get_company_by_id_request
      = { url := BlockzaClient.DIRECTORY_URL, params := [] }
  ∧ BlockzaClient.get_expert_by_id_request idv
      = { url := BlockzaClient.EXPERTS_URL ++ "/" ++ idv, params := [] }
  ∧ (∀ body, body.truthy = true →
      BlockzaClient.get_expert_by_id_process (.ok body)
        = (BlockzaClient.filter_expert_fields body).map some) := by
  refine ⟨?_, ?_, ?_, ?_, rfl, rfl, rfl, rfl, rfl, ?_⟩
  · intro l h
    have hobj : ∀ e ∈ l, IsObj e := by
      cases resp with
      | ok data =>
          simp only [BlockzaClient.get_events_process] at h
          exact mapExcept_all_jobj filter_event_ok_jobj h
      | transportError => simp_all [BlockzaClient.get_events_process,
          ← Except.ok.inj h]
      | statusError c => simp_all [BlockzaClient.get_events_process]
      | badJson => simp_all [BlockzaClient.get_events_process]
    simp only [BlockzaClient.get_event_by_id_process]
    rw [h]
    simp only [pyOkBind]
    rw [scanById_eq_find _ _ _ hobj]
  · intro l h
    have hobj : ∀ e ∈ l, IsObj e := by
      cases resp with
      | ok data =>
          simp only [BlockzaClient.get_podcasts_process] at h
          generalize (match data with
            | jarr xs => jarr xs
            | jobj r => pyGetD r "data" (jarr [])
            | _ => jarr []) = pv at h
          rcases hIt : pyIter pv with e2 | elems
          · rw [hIt] at h; simp at h
          · rw [hIt] at h
            simp only [pyOkBind] at h
            exact mapExcept_all_jobj filter_podcast_ok_jobj h
      | transportError => simp_all [BlockzaClient.get_podcasts_process,
          ← Except.ok.inj h]
      | statusError c => simp_all [BlockzaClient.get_podcasts_process]
      | badJson => simp_all [BlockzaClient.get_podcasts_process]
    simp only [BlockzaClient.get_podcast_by_id_process]
    rw [h]
    simp only [pyOkBind]
    rw [scanPodcastById_eq_find _ _ hobj]
  · intro l h
    have hobj := get_team_members_all_jobj h
    simp only [BlockzaClient.get_team_member_by_id_process]
    rw [h]
    simp only [pyOkBind]
    rw [scanById_eq_find _ _ _ hobj]
  · intro cs hcs
    show (match BlockzaClient.scanById "_id" idv cs with
      | .ok v => v
      | .error _ => none) = cs.find? (idMatch "_id" idv)
    rw [scanById_eq_find _ _ _ hcs]
  · intro body hb
    rcases hF : BlockzaClient.filter_expert_fields body with e | f <;>
      simp [BlockzaClient.get_expert_by_id_process, hb, hF, Except.map]

/-- C8 (witness).  The scan equations instantiated at concrete
responses: a one-event listing and a one-company directory. -/
theorem lookup_by_id_listing_scan_witness :
    BlockzaClient.get_event_by_id_process "e1" (.ok (jarr [jobj [("_id", jstr "e1")]]))
      = [jobj [("_id", jstr "e1"), ("title", jnull), ("description", jstr ""),
          ("location", jnull), ("country", jnull), ("city", jnull),
          ("eventStartDate", jnull), ("eventEndDate", jnull),
          ("category", jnull), ("website", jnull), ("company", jnull)]].find?
          (idMatch "_id" "e1")
  ∧ BlockzaClient.get_company_by_id_process "c1"
        (.ok (jobj [("data", jarr [jobj [("_id", jstr "c1"), ("extra", jstr "kept")]])]))
      = [jobj [("_id", jstr "c1"), ("extra", jstr "kept")]].find?
          (idMatch "_id" "c1") :=
  ⟨(lookup_by_id_listing_scan "e1" (.ok (jarr [jobj [("_id", jstr "e1")]]))).1
      _ rfl,
   (lookup_by_id_listing_scan "c1"
        (.ok (jobj [("data", jarr [jobj [("_id", jstr "c1"), ("extra", jstr "kept")]])]))).2.2.2.1
      _ (by intro e he; rw [List.mem_singleton] at he; exact ⟨_, he⟩)⟩

/-- C9 (confirmed).  Whenever no record of the fetched candidate list
(empty or not) matches the requested id, each scan-based lookup
(events, podcasts, team members, companies) returns `None`, and the
tools and resources built on them return their explicit not-found
envelopes instead of raising.  For experts — where no candidate list
exists — an upstream 404 likewise yields `None` and the not-found
envelopes. -/
theorem lookup_not_found_envelopes (idv : String) (resp : HttpResp) :
    (∀ l, BlockzaClient.get_events_process resp = .ok l →
      (∀ e ∈ l, idMatch "_id" idv e = false) →
      BlockzaClient.get_event_by_id_process idv resp = none
      ∧ get_event_details_process idv resp
          = jobj [("error", jstr "Event not found"), ("event", jnull)]
      ∧ resource_event_by_id_process idv resp
          = jobj [("error", jstr "Event not found")])
  ∧ (∀ l, BlockzaClient.get_podcasts_process resp = .ok l →
      (∀ e ∈ l, podcastIdMatch idv e = false) →
      BlockzaClient.get_podcast_by_id_process idv resp = none
      ∧ get_podcast_details_process idv resp
          = jobj [("error", jstr "Podcast not found"), ("podcast", jnull)]
      ∧ resource_podcast_by_id_process idv resp
          = jobj [("error", jstr "Podcast not found")])
  ∧ (∀ l, BlockzaClient.get_team_members_process (some 1000) none none resp
        = .ok l →
      (∀ e ∈ l, idMatch "_id" idv e = false) →
      BlockzaClient.get_team_member_by_id_process idv resp = none
      ∧ get_team_member_details_process idv resp
          = jobj [("error", jstr "Team member not found"), ("member", jnull)]
      ∧ resource_team_member_by_id_process idv resp
          = jobj [("error", jstr "Team member not found")])
  ∧ (∀ cs, (∀ e ∈ cs, IsObj e) →
      (∀ e ∈ cs, idMatch "_id" idv e = false) →
      BlockzaClient.get_company_by_id_process idv
          (.ok (jobj [("data", jarr cs)])) = none
      ∧ resource_company_by_id_process idv (.ok (jobj [("data", jarr cs)]))
          = jobj [("error", jstr "Company not found")])
  ∧ (BlockzaClient.get_expert_by_id_process (.statusError 404) = .ok none
      ∧ get_expert_details_process (.statusError 404)
          = .ok (jobj [("error", jstr "Expert not found"), ("expert", jnull)])
      ∧ resource_expert_by_id_process (.statusError 404)
          = .ok (jobj [("error", jstr "Expert not found")])) := by
  refine ⟨?_, ?_, ?_, ?_, rfl, rfl, rfl⟩
  · intro l h hnone
    have hobj : ∀ e ∈ l, IsObj e := by
      cases resp with
      | ok data =>
          simp only [BlockzaClient.get_events_process] at h
          exact mapExcept_all_jobj filter_event_ok_jobj h
      | transportError => simp_all [BlockzaClient.get_events_process,
          ← Except.ok.inj h]
      | statusError c => simp_all [BlockzaClient.get_events_process]
      | badJson => simp_all [BlockzaClient.get_events_process]
    have hl : BlockzaClient.get_event_by_id_process idv resp
        = l.find? (idMatch "_id" idv) := by
      simp only [BlockzaClient.get_event_by_id_process]
      rw [h]
      simp only [pyOkBind]
      rw [scanById_eq_find _ _ _ hobj]
    have hfind : l.find? (idMatch "_id" idv) = none :=
      List.find?_eq_none.mpr (fun x hx => by simp [hnone x hx])
    have hnone2 := hl.trans hfind
    exact ⟨hnone2, by simp [get_event_details_process, hnone2],
      by simp [resource_event_by_id_process, hnone2]⟩
  · intro l h hnone
    have hobj : ∀ e ∈ l, IsObj e := by
      cases resp with
      | ok data =>
          simp only [BlockzaClient.get_podcasts_process] at h
          generalize (match data with
            | jarr xs => jarr xs
            | jobj r => pyGetD r "data" (jarr [])
            | _ => jarr []) = pv at h
          rcases hIt : pyIter pv with e2 | elems
          · rw [hIt] at h; simp at h
          · rw [hIt] at h
            simp only [pyOkBind] at h
            exact mapExcept_all_jobj filter_podcast_ok_jobj h
      | transportError => simp_all [BlockzaClient.get_podcasts_process,
          ← Except.ok.inj h]
      | statusError c => simp_all [BlockzaClient.get_podcasts_process]
      | badJson => simp_all [BlockzaClient.get_podcasts_process]
    have hl : BlockzaClient.get_podcast_by_id_process idv resp
        = l.find? (podcastIdMatch idv) := by
      simp only [BlockzaClient.get_podcast_by_id_process]
      rw [h]
      simp only [pyOkBind]
      rw [scanPodcastById_eq_find _ _ hobj]
    have hfind : l.find? (podcastIdMatch idv) = none :=
      List.find?_eq_none.mpr (fun x hx => by simp [hnone x hx])
    have hnone2 := hl.trans hfind
    exact ⟨hnone2, by simp [get_podcast_details_process, hnone2],
      by simp [resource_podcast_by_id_process, hnone2]⟩
  · intro l h hnone
    have hobj := get_team_members_all_jobj h
    have hl : BlockzaClient.get_team_member_by_id_process idv resp
        = l.find? (idMatch "_id" idv) := by
      simp only [BlockzaClient.get_team_member_by_id_process]
      rw [h]
      simp only [pyOkBind]
      rw [scanById_eq_find _ _ _ hobj]
    have hfind : l.find? (idMatch "_id" idv) = none :=
      List.find?_eq_none.mpr (fun x hx => by simp [hnone x hx])
    have hnone2 := hl.trans hfind
    exact ⟨hnone2, by simp [get_team_member_details_process, hnone2],
      by simp [resource_team_member_by_id_process, hnone2]⟩
  · intro cs hcs hnone
    have hl : BlockzaClient.get_company_by_id_process idv
        (.ok (jobj [("data", jarr cs)])) = cs.find? (idMatch "_id" idv) := by
      show (match BlockzaClient.scanById "_id" idv cs with
        | .ok v => v
        | .error _ => none) = cs.find? (idMatch "_id" idv)
      rw [scanById_eq_find _ _ _ hcs]
    have hfind : cs.find? (idMatch "_id" idv) = none :=
      List.find?_eq_none.mpr (fun x hx => by simp [hnone x hx])
    have hnone2 := hl.trans hfind
    exact ⟨hnone2, by simp [resource_company_by_id_process, hnone2]⟩

/-- C9 (witness).  The not-found behaviour instantiated at a non-empty
non-matching candidate list and at an empty one. -/
theorem lookup_not_found_envelopes_witness :
    BlockzaClient.get_event_by_id_process "e1"
        (.ok (jarr [jobj [("_id", jstr "e2")]])) = none
  ∧ get_event_details_process "e1" (.ok (jarr [jobj [("_id", jstr "e2")]]))
      = jobj [("error", jstr "Event not found"), ("event", jnull)]
  ∧ BlockzaClient.get_event_by_id_process "e1" (.ok (jarr [])) = none :=
  ⟨((lookup_not_found_envelopes "e1" (.ok (jarr [jobj [("_id", jstr "e2")]]))).1
      [jobj [("_id", jstr "e2"), ("title", jnull), ("description", jstr ""),
        ("location", jnull), ("country", jnull), ("city", jnull),
        ("eventStartDate", jnull), ("eventEndDate", jnull),
        ("category", jnull), ("website", jnull), ("company", jnull)]] rfl
      (by intro e he; rw [List.mem_singleton] at he; subst he; rfl)).1,
   ((lookup_not_found_envelopes "e1" (.ok (jarr [jobj [("_id", jstr "e2")]]))).1
      [jobj [("_id", jstr "e2"), ("title", jnull), ("description", jstr ""),
        ("location", jnull), ("country", jnull), ("city", jnull),
        ("eventStartDate", jnull), ("eventEndDate", jnull),
        ("category", jnull), ("website", jnull), ("company", jnull)]] rfl
      (by intro e he; rw [List.mem_singleton] at he; subst he; rfl)).2.1,
   ((lookup_not_found_envelopes "e1" (.ok (jarr []))).1 [] rfl
      (by intro e he; simp at he)).1⟩

/-! ## C10: company-by-id returns the raw upstream record -/

def companyKeys : List String :=
  ["_id", "name", "slug", "category", "shortDescription", "logo", "website",
   "founderName", "verificationStatus", "teamSize", "likes", "views"]

theorem filterCompany_ok_shape : ∀ x o,
    BlockzaClient.filterCompanyEntry x = .ok o →
    ∃ fs, o = jobj fs ∧ fs.map Prod.fst = companyKeys := by
  intro x o h
  cases x with
  | jobj r =>
      rcases hS : pySlice200 (pyGetD r "shortDescription" (jstr "")) with e | d
      · simp only [BlockzaClient.filterCompanyEntry, hS, pyErrBind] at h
        exact absurd h (by simp)
      · rcases hL : pyLen (pyGetD r "teamMembers" (jarr [])) with e | n
        · simp only [BlockzaClient.filterCompanyEntry, hS, hL, pyOkBind,
            pyErrBind] at h
          exact absurd h (by simp)
        · simp only [BlockzaClient.filterCompanyEntry, hS, hL, pyOkBind] at h
          exact ⟨_, (Except.ok.inj h).symm, rfl⟩
  | jnull => exact absurd h (by simp [BlockzaClient.filterCompanyEntry])
  | jbool b => exact absurd h (by simp [BlockzaClient.filterCompanyEntry])
  | jnum n => exact absurd h (by simp [BlockzaClient.filterCompanyEntry])
  | jstr s => exact absurd h (by simp [BlockzaClient.filterCompanyEntry])
  | jarr xs => exact absurd h (by simp [BlockzaClient.filterCompanyEntry])

theorem mapExcept_length {f : JVal → Except PyErr JVal} :
    ∀ {xs l}, mapExcept f xs = .ok l → l.length = xs.length := by
  intro xs
  induction xs with
  | nil =>
      intro l h
      simp only [mapExcept] at h
      rw [← Except.ok.inj h]
  | cons x xs ih =>
      intro l h
      simp only [mapExcept] at h
      rcases hx : f x with ex | y
      · rw [hx] at h; simp at h
      · rw [hx] at h
        simp only [pyOkBind] at h
        rcases hxs : mapExcept f xs with e2 | ys
        · rw [hxs] at h; simp at h
        · rw [hxs] at h
          simp only [pyOkBind] at h
          rw [← Except.ok.inj h]
          simp [ih hxs]

theorem mapExcept_all_prop {P : JVal → Prop} {f : JVal → Except PyErr JVal}
    (hf : ∀ x o, f x = .ok o → P o) :
    ∀ {xs l}, mapExcept f xs = .ok l → ∀ e ∈ l, P e := by
  intro xs
  induction xs with
  | nil =>
      intro l h e he
      simp only [mapExcept] at h
      rw [← Except.ok.inj h] at he
      simp at he
  | cons x xs ih =>
      intro l h e he
      simp only [mapExcept] at h
      rcases hx : f x with ex | y
      · rw [hx] at h; simp at h
      · rw [hx] at h
        simp only [pyOkBind] at h
        rcases hxs : mapExcept f xs with e2 | ys
        · rw [hxs] at h; simp at h
        · rw [hxs] at h
          simp only [pyOkBind] at h
          rw [← Except.ok.inj h] at he
          rcases List.mem_cons.mp he with rfl | hmem
          · exact hf x e hx
          · exact ih hxs e hmem

set_option maxRecDepth 4000 in
/-- C10 (confirmed).  `get_company_by_id` (serving
`blockza://companies/{company_id}`) returns the matched upstream
company record verbatim — whatever extra fields it carries pass through
unchanged, `shortDescription` stays untruncated, no `teamSize` is
added — and the resource wraps that raw record.  By contrast,
`get_companies` projects every listed record onto the fixed
twelve-field subset.  The concrete contrast: a company with a
`secretField` and a 300-character `shortDescription` comes back whole
from the by-id lookup, while the listing projects it (dropping
`secretField`, truncating to 200 characters, deriving `teamSize`). -/
theorem company_by_id_raw_passthrough (idv : String) (cs : List JVal)
    (hcs : ∀ e ∈ cs, IsObj e) :
    (∀ c, cs.find? (idMatch "_id" idv) = some c →
      BlockzaClient.get_company_by_id_process idv
          (.ok (jobj [("data", jarr cs)])) = some c
      ∧ resource_company_by_id_process idv (.ok (jobj [("data", jarr cs)]))
          = jobj [("company", c), ("source", jstr "/api/directory"),
              ("type", jstr "company")])
  ∧ (∀ out, BlockzaClient.get_companies_process (.ok (jobj [("data", jarr cs)]))
        = .ok out →
      out.length = cs.length
      ∧ ∀ o ∈ out, ∃ fs, o = jobj fs ∧ fs.map Prod.fst = companyKeys)
  ∧ (BlockzaClient.get_company_by_id_process "c1"
        (.ok (jobj [("data", jarr [jobj [("_id", jstr "c1"),
          ("secretField", jstr "internal"),
          ("shortDescription", jstr (String.mk (List.replicate 300 'y'))),
          ("teamMembers", jarr [jobj []])]])]))
      = some (jobj [("_id", jstr "c1"), ("secretField", jstr "internal"),
          ("shortDescription", jstr (String.mk (List.replicate 300 'y'))),
          ("teamMembers", jarr [jobj []])])
    ∧ BlockzaClient.get_companies_process
        (.ok (jobj [("data", jarr [jobj [("_id", jstr "c1"),
          ("secretField", jstr "internal"),
          ("shortDescription", jstr (String.mk (List.replicate 300 'y'))),
          ("teamMembers", jarr [jobj []])]])]))
      = .ok [jobj [("_id", jstr "c1"), ("name", jnull), ("slug", jnull),
          ("category", jnull),
          ("shortDescription", jstr (String.mk (List.replicate 200 'y'))),
          ("logo", jnull), ("website", jnull), ("founderName", jnull),
          ("verificationStatus", jnull), ("teamSize", jnum 1),
          ("likes", jnum 0), ("views", jnum 0)]]) := by
  refine ⟨?_, ?_, rfl, rfl⟩
  · intro c hfind
    have hl : BlockzaClient.get_company_by_id_process idv
        (.ok (jobj [("data", jarr cs)])) = cs.find? (idMatch "_id" idv) := by
      show (match BlockzaClient.scanById "_id" idv cs with
        | .ok v => v
        | .error _ => none) = cs.find? (idMatch "_id" idv)
      rw [scanById_eq_find _ _ _ hcs]
    have hsome := hl.trans hfind
    exact ⟨hsome, by simp [resource_company_by_id_process, hsome]⟩
  · intro out h
    have h2 : mapExcept BlockzaClient.filterCompanyEntry cs = .ok out := h
    exact ⟨mapExcept_length h2, mapExcept_all_prop filterCompany_ok_shape h2⟩

/-- C10 (witness).  The raw-passthrough statement instantiated at a
one-company directory. -/
theorem company_by_id_raw_passthrough_witness :
    BlockzaClient.get_company_by_id_process "c1"
        (.ok (jobj [("data", jarr [jobj [("_id", jstr "c1")]])]))
      = some (jobj [("_id", jstr "c1")]) :=
  ((company_by_id_raw_passthrough "c1" [jobj [("_id", jstr "c1")]]
      (by intro e he; rw [List.mem_singleton] at he; exact ⟨_, he⟩)).1
    (jobj [("_id", jstr "c1")]) rfl).1

/-! ## C3: upcoming-event filtering -/

/-- C3 (code bug).  `get_upcoming_events` evaluates the code at the
failing input: for the fixed naive now `2020-01-01T00:00:00`, an event
whose `eventStartDate` is the far-future `"2099-01-01T00:00:00Z"` is
DROPPED, although the trailing `Z` is substituted to `+00:00` and the
timestamp parses to an offset-aware datetime strictly in the future.
The cause is shown by the last conjuncts: the parsed value is
offset-aware, `datetime.now()` is offset-naive, and CPython raises
`TypeError` on their comparison, which the bare `except: pass`
swallows — so the `Z`-tolerance is defeated and every offset-carrying
event is silently excluded.  The identical naive timestamp IS kept, a
past naive timestamp and an unparsable one are excluded, exactly as
the claim demands for those cases. -/
theorem upcoming_z_suffixed_future_event_dropped :
    BlockzaClient.get_upcoming_events_process ⟨2020, 1, 1, 0, 0, 0, none⟩
      (.ok (jarr [jobj [("_id", jstr "e1"),
        ("eventStartDate", jstr "2099-01-01T00:00:00Z")]])) = []
  ∧ BlockzaClient.get_upcoming_events_process ⟨2020, 1, 1, 0, 0, 0, none⟩
      (.ok (jarr [jobj [("_id", jstr "e2"),
        ("eventStartDate", jstr "2099-01-01T00:00:00")]]))
      = [jobj [("_id", jstr "e2"), ("title", jnull), ("description", jstr ""),
        ("location", jnull), ("country", jnull), ("city", jnull),
        ("eventStartDate", jstr "2099-01-01T00:00:00"),
        ("eventEndDate", jnull), ("category", jnull), ("website", jnull),
        ("company", jnull)]]
  ∧ BlockzaClient.get_upcoming_events_process ⟨2020, 1, 1, 0, 0, 0, none⟩
      (.ok (jarr [jobj [("_id", jstr "e3"),
        ("eventStartDate", jstr "2001-06-15T12:00:00")]])) = []
  ∧ BlockzaClient.get_upcoming_events_process ⟨2020, 1, 1, 0, 0, 0, none⟩
      (.ok (jarr [jobj [("_id", jstr "e4"),
        ("eventStartDate", jstr "not-a-date")]])) = []
  ∧ pyStrReplace "2099-01-01T00:00:00Z" "Z" "+00:00"
      = "2099-01-01T00:00:00+00:00"
  ∧ fromisoformat "2099-01-01T00:00:00+00:00"
      = some ⟨2099, 1, 1, 0, 0, 0, some 0⟩
  ∧ pyDtGt ⟨2099, 1, 1, 0, 0, 0, some 0⟩ ⟨2020, 1, 1, 0, 0, 0, none⟩
      = .error .typeError :=
  ⟨rfl, rfl, rfl, rfl, rfl, rfl, rfl⟩

/-! ## C1: the error-handling boundary -/

/-- C1 (counterexample).  Not every error that arises while processing
a response is converted to an empty result: when the upstream body is
a JSON array containing a non-dict element, `filter_event_fields`
raises `AttributeError` (`.get` on a non-dict), which the accessor's
`except requests.exceptions.RequestException` clause does NOT catch —
the error escapes `get_events` and the `list_events` adapter instead
of producing `[]` / an empty envelope. -/
theorem list_accessor_error_propagates :
    BlockzaClient.get_events_process (.ok (jarr [jstr "oops"]))
      = .error .attributeError
  ∧ list_events_process (.ok (jarr [jstr "oops"])) = .error .attributeError :=
  ⟨rfl, rfl⟩

/-- C1 (amended).  Every `requests`-layer failure — transport error,
non-2xx status raised by `raise_for_status`, body that fails to parse
as JSON — is caught at the accessor boundary: every list accessor
returns `[]`, every by-id lookup returns `None`, and every tool and
resource adapter returns its well-formed empty-result or not-found
envelope.  Errors raised while processing a successfully parsed body,
however, are caught only by the by-id lookups (whose broad
`except Exception` yields `None`, last two conjuncts); in the list
accessors and the adapters built on them such errors propagate (see
the counterexample). -/
theorem error_handling_boundary (resp : HttpResp) (hf : resp.isFail = true)
    (l : Int) (hl : 1 ≤ l) (now : PyDatetime) (idv q cat comp sort_by : String)
    (co oc : Option String) :
    BlockzaClient.get_events_process resp = .ok []
  ∧ BlockzaClient.get_podcasts_process resp = .ok []
  ∧ BlockzaClient.get_experts_process resp = .ok []
  ∧ (∀ lim s c, BlockzaClient.get_team_members_process lim s c resp = .ok [])
  ∧ BlockzaClient.get_companies_process resp = .ok []
  ∧ BlockzaClient.get_event_by_id_process idv resp = none
  ∧ BlockzaClient.get_podcast_by_id_process idv resp = none
  ∧ BlockzaClient.get_expert_by_id_process resp = .ok none
  ∧ BlockzaClient.get_team_member_by_id_process idv resp = none
  ∧ BlockzaClient.get_company_by_id_process idv resp = none
  ∧ BlockzaClient.get_upcoming_events_process now resp = []
  ∧ list_events_process resp = .ok (jobj [("events", jarr []), ("count", jnum 0)])
  ∧ search_events_process resp
      = .ok (jobj [("events", jarr []), ("count", jnum 0)])
  ∧ get_event_details_process idv resp
      = jobj [("error", jstr "Event not found"), ("event", jnull)]
  ∧ get_upcoming_events_process resp
      = .ok (jobj [("events", jarr []), ("count", jnum 0)])
  ∧ search_events_by_location_process resp
      = .ok (jobj [("events", jarr []), ("count", jnum 0)])
  ∧ list_podcasts_process resp
      = .ok (jobj [("podcasts", jarr []), ("count", jnum 0)])
  ∧ search_podcasts_process resp
      = .ok (jobj [("podcasts", jarr []), ("count", jnum 0)])
  ∧ get_podcast_details_process idv resp
      = jobj [("error", jstr "Podcast not found"), ("podcast", jnull)]
  ∧ get_podcasts_by_category_process l resp
      = .ok (jobj [("podcasts", jarr []), ("count", jnum 0)])
  ∧ search_podcasts_by_company_process resp
      = .ok (jobj [("podcasts", jarr []), ("count", jnum 0)])
  ∧ list_experts_process resp
      = .ok (jobj [("experts", jarr []), ("count", jnum 0),
          ("source", jstr "/api/experts"), ("type", jstr "standalone_experts")])
  ∧ search_experts_process resp
      = .ok (jobj [("experts", jarr []), ("count", jnum 0),
          ("source", jstr "/api/experts"), ("type", jstr "standalone_experts")])
  ∧ get_expert_details_process resp
      = .ok (jobj [("error", jstr "Expert not found"), ("expert", jnull)])
  ∧ get_top_experts_process l sort_by resp
      = .ok (jobj [("experts", jarr []), ("count", jnum 0),
          ("sortedBy", jstr sort_by), ("source", jstr "/api/experts"),
          ("type", jstr "standalone_experts")])
  ∧ list_team_members_process l resp
      = .ok (jobj [("team_members", jarr []), ("count", jnum 0),
          ("source", jstr "/api/directory"),
          ("type", jstr "company_team_members")])
  ∧ search_team_members_process q l co oc resp
      = .ok (jobj [("team_members", jarr []), ("count", jnum 0),
          ("filters", jobj [("search", jstr q), ("company", optStrToJ co),
            ("category", optStrToJ oc)]),
          ("source", jstr "/api/directory"),
          ("type", jstr "company_team_members")])
  ∧ get_team_member_details_process idv resp
      = jobj [("error", jstr "Team member not found"), ("member", jnull)]
  ∧ get_team_members_by_company_process comp l resp
      = .ok (jobj [("team_members", jarr []), ("count", jnum 0),
          ("company", jstr comp), ("source", jstr "/api/directory"),
          ("type", jstr "company_team_members")])
  ∧ get_team_members_by_category_process cat l resp
      = .ok (jobj [("team_members", jarr []), ("count", jnum 0),
          ("category", jstr cat), ("source", jstr "/api/directory"),
          ("type", jstr "company_team_members")])
  ∧ list_companies_process l resp
      = .ok (jobj [("companies", jarr []), ("count", jnum 0)])
  ∧ search_companies_process resp
      = .ok (jobj [("companies", jarr []), ("count", jnum 0)])
  ∧ get_companies_by_category_process resp
      = .ok (jobj [("companies", jarr []), ("count", jnum 0)])
  ∧ resource_all_experts_process resp
      = .ok (jobj [("experts", jarr []), ("count", jnum 0),
          ("source", jstr "/api/experts"), ("type", jstr "standalone_experts")])
  ∧ resource_expert_by_id_process resp
      = .ok (jobj [("error", jstr "Expert not found")])
  ∧ resource_all_team_members_process resp
      = .ok (jobj [("team_members", jarr []), ("count", jnum 0),
          ("source", jstr "/api/directory"),
          ("type", jstr "company_team_members")])
  ∧ resource_team_member_by_id_process idv resp
      = jobj [("error", jstr "Team member not found")]
  ∧ resource_team_members_by_company_process comp resp
      = .ok (jobj [("team_members", jarr []), ("count", jnum 0),
          ("company", jstr comp), ("source", jstr "/api/directory"),
          ("type", jstr "company_team_members")])
  ∧ resource_team_members_by_category_process cat resp
      = .ok (jobj [("team_members", jarr []), ("count", jnum 0),
          ("category", jstr cat), ("source", jstr "/api/directory"),
          ("type", jstr "company_team_members")])
  ∧ resource_all_events_process resp
      = .ok (jobj [("events", jarr []), ("count", jnum 0)])
  ∧ resource_upcoming_events_process resp
      = .ok (jobj [("events", jarr []), ("count", jnum 0)])
  ∧ resource_event_by_id_process idv resp
      = jobj [("error", jstr "Event not found")]
  ∧ resource_events_by_country_process resp
      = .ok (jobj [("events", jarr []), ("count", jnum 0)])
  ∧ resource_all_podcasts_process resp
      = .ok (jobj [("podcasts", jarr []), ("count", jnum 0)])
  ∧ resource_podcast_by_id_process idv resp
      = jobj [("error", jstr "Podcast not found")]
  ∧ resource_podcasts_by_category_process resp
      = .ok (jobj [("podcasts", jarr []), ("count", jnum 0)])
  ∧ resource_podcasts_by_company_process resp
      = .ok (jobj [("podcasts", jarr []), ("count", jnum 0)])
  ∧ resource_all_companies_process resp
      = .ok (jobj [("companies", jarr []), ("count", jnum 0),
          ("source", jstr "/api/directory"), ("type", jstr "companies")])
  ∧ resource_company_by_id_process idv resp
      = jobj [("error", jstr "Company not found")]
  ∧ resource_companies_by_category_process cat resp
      = .ok (jobj [("companies", jarr []), ("count", jnum 0),
          ("category", jstr cat), ("source", jstr "/api/directory"),
          ("type", jstr "companies")])
  ∧ BlockzaClient.get_event_by_id_process idv (.ok (jarr [jstr "bad"])) = none
  ∧ BlockzaClient.get_podcast_by_id_process idv (.ok (jarr [jstr "bad"]))
      = none := by
  have hmin15 : min (0 : Int) (min l 15) = 0 := by omega
  have hmin20 : min (0 : Int) (min l 20) = 0 := by omega
  cases resp with
  | ok data => simp [HttpResp.isFail] at hf
  | transportError =>
      repeat' apply And.intro
      all_goals first
        | rfl
        | (intro lim s c; rfl)
        | (simp [get_podcasts_by_category_process, get_top_experts_process,
            list_companies_process, BlockzaClient.get_podcasts_process,
            BlockzaClient.get_experts_process, BlockzaClient.get_companies_process,
            pySortedDescBy, pySliceTo_nil, hmin15, hmin20])
  | statusError c =>
      repeat' apply And.intro
      all_goals first
        | rfl
        | (intro lim s c2; rfl)
        | (simp [get_podcasts_by_category_process, get_top_experts_process,
            list_companies_process, BlockzaClient.get_podcasts_process,
            BlockzaClient.get_experts_process, BlockzaClient.get_companies_process,
            pySortedDescBy, pySliceTo_nil, hmin15, hmin20])
  | badJson =>
      repeat' apply And.intro
      all_goals first
        | rfl
        | (intro lim s c; rfl)
        | (simp [get_podcasts_by_category_process, get_top_experts_process,
            list_companies_process, BlockzaClient.get_podcasts_process,
            BlockzaClient.get_experts_process, BlockzaClient.get_companies_process,
            pySortedDescBy, pySliceTo_nil, hmin15, hmin20])

/-- C1 (witness).  The boundary theorem instantiated at a transport
error and concrete arguments. -/
theorem error_handling_boundary_witness :
    BlockzaClient.get_events_process .transportError = .ok []
  ∧ BlockzaClient.get_podcasts_process .transportError = .ok [] :=
  have h := error_handling_boundary .transportError rfl 5 (by decide)
    ⟨2020, 1, 1, 0, 0, 0, none⟩ "e1" "q" "cat" "Acme" "followers" none none
  ⟨h.1, h.2.1⟩
